import Mathlib

/-!
Verification development for the predixaAI backend's scheduler/detector
engine and rule-specification layer.

The Go sources are shallowly embedded: `float64` values are modelled by `ℚ`
(every concrete value appearing in the claims is exactly representable, and
no settled property depends on binary rounding), `time.Time` by a rational
number of seconds since the epoch, Go slices by `List`, Go maps paired with
an insertion-order slice by association lists in insertion order, and
fallible or panicking code by `Option`/`Except`.  The `Metadata
map[string]any` bag of `DetectorResult` is not modelled: no property below
concerns it.  `math.Inf(1)` appearing as an anomaly score is modelled by a
dedicated sum type `Score`.
-/

set_option maxRecDepth 20000

/-- Model of Go dynamic values (`any`) as consumed by
`toFloat` in evaluator.go: a numeric value (float64/float32/int/int64/int32,
all collapsed into `ℚ`) or any non-numeric value.  String values that
`strconv.ParseFloat` would accept are not needed by any claim and are
collapsed into `.other`. -/
inductive GoVal where
  | num (q : ℚ)
  | other
deriving DecidableEq, Repr

/-- `toFloat` from evaluator.go: numeric values convert, everything else is
an error (modelled as `none`). -/
def toFloat : GoVal → Option ℚ
  | GoVal.num q => some q
  | GoVal.other => none

/-- `ConditionSpec` from types.go (value modelled as an optional dynamic
value; a Go `nil` interface is `none`). -/
structure ConditionSpec where
  op : String
  value : Option GoVal := none
  min : Option ℚ := none
  max : Option ℚ := none
deriving DecidableEq, Repr

/-- `ThresholdSpec` from types.go. -/
structure ThresholdSpec where
  op : String
  value : Option GoVal := none
  min : Option ℚ := none
  max : Option ℚ := none
deriving DecidableEq, Repr

/-- `toFloat(cond.Value)` with the error ignored (`target, _ := toFloat(...)`):
Go leaves `target` at `0` on error, and a `nil` interface is also an error. -/
def toFloatOrZero (v : Option GoVal) : ℚ :=
  match v with
  | none => 0
  | some g => (toFloat g).getD 0

/-- `EvaluateCondition` from evaluator.go (condition.go section): returns
(hit, observed, limitExpr).  The observed/limit strings are rendered with
`toString` in place of `fmt.Sprint`; no claim depends on their exact text. -/
def EvaluateCondition (cond : ConditionSpec) (value : GoVal) : Bool × String × String :=
  match toFloat value with
  | none => (false, toString (repr value), cond.op)
  | some floatVal =>
    if cond.op = ">" then
      (floatVal > toFloatOrZero cond.value, toString floatVal, cond.op)
    else if cond.op = ">=" then
      (floatVal ≥ toFloatOrZero cond.value, toString floatVal, cond.op)
    else if cond.op = "<" then
      (floatVal < toFloatOrZero cond.value, toString floatVal, cond.op)
    else if cond.op = "<=" then
      (floatVal ≤ toFloatOrZero cond.value, toString floatVal, cond.op)
    else if cond.op = "==" then
      (floatVal = toFloatOrZero cond.value, toString floatVal, cond.op)
    else if cond.op = "!=" then
      (floatVal ≠ toFloatOrZero cond.value, toString floatVal, cond.op)
    else if cond.op = "between" then
      match cond.min, cond.max with
      | some mn, some mx =>
        (mn ≤ floatVal ∧ floatVal ≤ mx, toString floatVal, "between")
      | _, _ => (false, toString floatVal, "between")
    else
      (false, toString (repr value), cond.op)

/-- Anomaly-score values: the Go code stores either `math.Inf(1)` or a
finite float64 into `result.AnomalyScore`. -/
inductive Score where
  | inf
  | fin (q : ℚ)
deriving DecidableEq, Repr

/-- `Violation` from evaluator.go. -/
structure Violation where
  timestamp : Option ℚ := none
  index : Option ℤ := none
  value : ℚ
  reason : String
  limitName : String
  limitValue : ℚ
  delta : ℚ
deriving DecidableEq, Repr

/-- `DetectorResult` from evaluator.go (the `Metadata` map is not
modelled). -/
structure DetectorResult where
  hit : Bool := false
  status : String := ""
  severity : String := ""
  observed : String := ""
  limitExpr : String := ""
  anomalyScore : Option Score := none
  baselineMedian : Option ℚ := none
  baselineMAD : Option ℚ := none
  windowStart : Option ℚ := none
  windowEnd : Option ℚ := none
  baselineStart : Option ℚ := none
  baselineEnd : Option ℚ := none
  violations : List Violation := []
deriving DecidableEq, Repr

def statusOK : String := "OK"
def statusViolation : String := "VIOLATION"
def statusInsufficient : String := "INSUFFICIENT_DATA"
def statusInvalidConfig : String := "INVALID_CONFIG"

/-- `statusFromHit` from evaluator.go. -/
def statusFromHit (hit : Bool) : String :=
  if hit then statusViolation else statusOK

/-- `invalidConfig` from evaluator.go (the message goes into the unmodelled
metadata map and is dropped). -/
def invalidConfig (_message : String) : DetectorResult :=
  { hit := false, status := statusInvalidConfig }

/-- `insufficientData` from evaluator.go. -/
def insufficientData (_message : String) : DetectorResult :=
  { hit := false, status := statusInsufficient }

/-- `defaultEpsilon = 1e-9` from evaluator.go. -/
def defaultEpsilon : ℚ := 1 / 1000000000

/-- `Median` from evaluator.go: sort a copy (`sort.Float64s` modelled by
insertion sort) and take the middle element, or the mean of the two middle
elements for even length; the empty list yields `0`. -/
def Median (values : List ℚ) : ℚ :=
  if values = [] then 0
  else
    let sorted := values.insertionSort (· ≤ ·)
    let mid := values.length / 2
    if values.length % 2 = 0 then
      ((sorted.getD (mid - 1) 0) + sorted.getD mid 0) / 2
    else
      sorted.getD mid 0

/-- `MAD` from evaluator.go: median of absolute deviations; empty input
yields `0`. -/
def MAD (values : List ℚ) (median : ℚ) : ℚ :=
  if values = [] then 0
  else Median (values.map (fun v => |v - median|))

/-- `EvaluateRobustZ` from evaluator.go.  `fmt.Sprintf` renderings of the
observed value and limit expression are abbreviated; no claim reads them. -/
def EvaluateRobustZ (samples : List ℚ) (latest zWarn zCrit : ℚ) : DetectorResult :=
  let median := Median samples
  let mad := MAD samples median
  let result : DetectorResult :=
    { hit := false, status := statusOK, severity := "", observed := toString latest,
      limitExpr := "robust_zscore", anomalyScore := none,
      baselineMedian := some median, baselineMAD := some mad }
  if mad = 0 then
    if |latest - median| ≤ defaultEpsilon then result
    else
      { result with
        anomalyScore := some Score.inf
        hit := true
        status := statusViolation
        severity := "high" }
  else
    let score := (6745 / 10000) * (latest - median) / mad
    let absScore := |score|
    let result := { result with anomalyScore := some (Score.fin score) }
    if absScore ≥ zCrit then
      { result with
        hit := true
        status := statusViolation
        severity := "high" }
    else if absScore ≥ zWarn then
      { result with
        hit := true
        status := statusViolation
        severity := "medium" }
    else result

/-- `EvaluateThresholdDetector` from evaluator.go; the Go function also
returns an always-`nil` error, dropped here. -/
def EvaluateThresholdDetector (threshold : ThresholdSpec) (value : GoVal) : DetectorResult :=
  let cond : ConditionSpec :=
    { op := threshold.op, value := threshold.value, min := threshold.min, max := threshold.max }
  let r := EvaluateCondition cond value
  { hit := r.1, status := statusFromHit r.1, severity := "high",
    observed := r.2.1, limitExpr := r.2.2 }

/-- `EvaluateMissingData` from evaluator.go: timestamps are rational seconds,
`gap := now - latestTS`, `limit := maxGapSeconds` seconds. -/
def EvaluateMissingData (latestTS : ℚ) (maxGapSeconds : ℤ) (now : ℚ) : DetectorResult :=
  let gap := now - latestTS
  let hit : Bool := gap > (maxGapSeconds : ℚ)
  { hit := hit, status := statusFromHit hit, severity := "high",
    observed := toString latestTS, limitExpr := "missing_data" }


/-- `Sample` from samples.go: timestamp as rational seconds since the epoch,
float64 value, subgroup key. -/
structure Sample where
  ts : ℚ := 0
  value : ℚ := 0
  subgroup : String := ""
deriving DecidableEq, Repr

/-- `timePtr` from evaluator.go: the zero `time.Time` is modelled as `0`
seconds, giving `nil` (`none`). -/
def timePtr (ts : ℚ) : Option ℚ :=
  if ts = 0 then none else some ts

/-- `SpecLimitBounds` from types.go. -/
structure SpecLimitBounds where
  usl : Option ℚ := none
  lsl : Option ℚ := none
deriving DecidableEq, Repr

/-- `ControlLimitBounds` from types.go. -/
structure ControlLimitBounds where
  ucl : Option ℚ := none
  lcl : Option ℚ := none
deriving DecidableEq, Repr

/-- `SpecLimitSpec` from types.go. -/
structure SpecLimitSpec where
  specLimits : Option SpecLimitBounds := none
  controlLimits : Option ControlLimitBounds := none
  mode : String := ""
  epsilon : Option ℚ := none
deriving DecidableEq, Repr

/-- `TimeRangeSpec` from types.go (RFC3339 strings, kept verbatim). -/
structure TimeRangeSpec where
  start : String
  stop : String
deriving DecidableEq, Repr

/-- `BaselineSpec` from types.go. -/
structure BaselineSpec where
  lastN : Option ℤ := none
  timeRange : Option TimeRangeSpec := none
deriving DecidableEq, Repr

/-- `ShewhartSpec` from types.go. -/
structure ShewhartSpec where
  baseline : BaselineSpec := {}
  sigmaMultiplier : ℚ := 0
  minBaselineN : ℤ := 0
  populationSigma : Bool := false
deriving DecidableEq, Repr

/-- `SubgroupingSpec` from types.go. -/
structure SubgroupingSpec where
  mode : String := ""
  column : String := ""
deriving DecidableEq, Repr

/-- `RangeChartSpec` from types.go. -/
structure RangeChartSpec where
  subgroupSize : ℤ := 0
  subgrouping : SubgroupingSpec := {}
  baseline : BaselineSpec := {}
  minBaselineSubgroups : ℤ := 0
deriving DecidableEq, Repr

/-- `TrendSpec` from types.go. -/
structure TrendSpec where
  windowSize : ℤ := 0
  epsilon : ℚ := 0
  requireConsecutiveTimestamps : Bool := false
deriving DecidableEq, Repr

/-- `TPASpec` from types.go. -/
structure TPASpec where
  windowN : ℤ := 0
  regressionTimeBasis : String := ""
  slopeThreshold : Option ℚ := none
  timeToSpecThreshold : Option ℚ := none
  requireSpecLimits : Bool := false
  specLimits : Option SpecLimitBounds := none
  epsilon : ℚ := 0
deriving DecidableEq, Repr

/-- `Mean` from stats.go. -/
def Mean (values : List ℚ) : ℚ :=
  if values = [] then 0 else values.sum / values.length

/-- Executable stand-in for `math.Sqrt` used by `StdDev`: a rational
approximation of the square root (exact scaling through `Nat.sqrt`).  No
settled property depends on the value this returns, only the surrounding
control flow is relevant. -/
def ratSqrt (q : ℚ) : ℚ :=
  if q ≤ 0 then 0
  else ((Nat.sqrt (q.num.toNat * 1000000000000 * q.den) : ℚ)) / (1000000 * q.den)

/-- `StdDev` from stats.go: population or sample standard deviation, `0`
for fewer than two values in sample mode and for the empty list. -/
def StdDev (values : List ℚ) (population : Bool) : ℚ :=
  if values = [] then 0
  else
    let mean := Mean values
    let sum := (values.map (fun v => (v - mean) * (v - mean))).sum
    if !population ∧ values.length < 2 then 0
    else
      let denom : ℚ := if population then values.length else values.length - 1
      ratSqrt (sum / denom)

/-- `LinearRegression` from stats.go: `none` models `ok = false` (length
mismatch, fewer than two points, or zero denominator); otherwise
`(slope, intercept, r2)`. -/
def LinearRegression (xVals yVals : List ℚ) : Option (ℚ × ℚ × ℚ) :=
  if xVals.length ≠ yVals.length ∨ xVals.length < 2 then none
  else
    let n : ℚ := xVals.length
    let sumX := xVals.sum
    let sumY := yVals.sum
    let sumXY := ((xVals.zip yVals).map (fun p => p.1 * p.2)).sum
    let sumX2 := (xVals.map (fun x => x * x)).sum
    let denom := n * sumX2 - sumX * sumX
    if denom = 0 then none
    else
      let slope := (n * sumXY - sumX * sumY) / denom
      let intercept := (sumY - slope * sumX) / n
      let meanY := sumY / n
      let ssTot := (yVals.map (fun y => (y - meanY) * (y - meanY))).sum
      let ssRes :=
        ((xVals.zip yVals).map
          (fun p => (p.2 - (slope * p.1 + intercept)) * (p.2 - (slope * p.1 + intercept)))).sum
      if ssTot = 0 then some (slope, intercept, 1)
      else some (slope, intercept, 1 - ssRes / ssTot)

/-- The `breach` closure of `EvaluateSpecLimit` in evaluator.go (metadata
writes dropped). -/
def specLimitBreach (sample : Sample) (limit : ℚ) (kind : String) (r : DetectorResult) :
    DetectorResult :=
  { r with
    hit := true
    status := statusViolation
    violations := r.violations ++
      [{ timestamp := timePtr sample.ts, value := sample.value, reason := "limit_breach",
         limitName := kind, limitValue := limit, delta := sample.value - limit }] }

/-- The USL/LSL breach checks of `EvaluateSpecLimit`'s spec-limit block
(run only when the bound set is present). -/
def specLimitSection (sample : Sample) (epsilon : ℚ) (bounds : Option SpecLimitBounds)
    (r : DetectorResult) : DetectorResult :=
  match bounds with
  | some b =>
    let ra := match b.usl with
      | some u =>
        if sample.value > u + epsilon then specLimitBreach sample u "USL" r else r
      | none => r
    (match b.lsl with
      | some l =>
        if sample.value < l - epsilon then specLimitBreach sample l "LSL" ra else ra
      | none => ra)
  | none => r

/-- The UCL/LCL breach checks of `EvaluateSpecLimit`'s control-limit
block. -/
def controlLimitSection (sample : Sample) (epsilon : ℚ) (bounds : Option ControlLimitBounds)
    (r : DetectorResult) : DetectorResult :=
  match bounds with
  | some b =>
    let ra := match b.ucl with
      | some u =>
        if sample.value > u + epsilon then specLimitBreach sample u "UCL" r else r
      | none => r
    (match b.lcl with
      | some l =>
        if sample.value < l - epsilon then specLimitBreach sample l "LCL" ra else ra
      | none => ra)
  | none => r

/-- `EvaluateSpecLimit` from evaluator.go.  Go runs the spec-limit block and
then the control-limit block in sequence, each with an early
`invalidConfig` return; the flattening below has identical control flow. -/
def EvaluateSpecLimit (sample : Sample) (spec : SpecLimitSpec) : DetectorResult :=
  let mode := if spec.mode = "" then "spec" else spec.mode
  let epsilon := spec.epsilon.getD 0
  let base : DetectorResult :=
    { hit := false, status := statusOK, severity := "high",
      observed := toString sample.value, limitExpr := mode,
      windowStart := timePtr sample.ts, windowEnd := timePtr sample.ts }
  let specMissing : Bool := match spec.specLimits with
    | none => true
    | some b => b.usl.isNone && b.lsl.isNone
  let controlMissing : Bool := match spec.controlLimits with
    | none => true
    | some b => b.ucl.isNone && b.lcl.isNone
  if (mode == "spec" || mode == "both") && specMissing then
    invalidConfig ("spec limits required")
  else
    let r1 :=
      if mode == "spec" || mode == "both" then
        specLimitSection sample epsilon spec.specLimits base
      else base
    if (mode == "control" || mode == "both") && controlMissing then
      invalidConfig ("control limits required")
    else
      if mode == "control" || mode == "both" then
        controlLimitSection sample epsilon spec.controlLimits r1
      else r1

/-- `extractValues` from evaluator.go. -/
def extractValues (samples : List Sample) : List ℚ :=
  samples.map (fun s => s.value)

/-- `EvaluateShewhart` from evaluator.go.  `none` models the Go panic on
`samples[len(samples)-1]` when the list is empty (reachable only with a
negative `minBaselineN`).  Metadata and `fmt.Sprintf` strings dropped. -/
def EvaluateShewhart (samples : List Sample) (spec : ShewhartSpec) (sigmaMultiplier : ℚ) :
    Option DetectorResult :=
  let values := extractValues samples
  let minBaseline := if spec.minBaselineN = 0 then 20 else spec.minBaselineN
  if (values.length : ℤ) < minBaseline then some (insufficientData ("baseline too small"))
  else
    match samples.getLast? with
    | none => none
    | some lastSample =>
      let mean := Mean values
      let sigma := StdDev values spec.populationSigma
      let ucl := mean + sigmaMultiplier * sigma
      let lcl := mean - sigmaMultiplier * sigma
      let latest := lastSample.value
      let base : DetectorResult :=
        { hit := false, status := statusOK, severity := "high",
          observed := toString latest, limitExpr := "shewhart" }
      if sigma = 0 then
        if latest ≠ mean then
          some { base with
            hit := true
            status := statusViolation
            violations := [{ timestamp := timePtr lastSample.ts, value := latest,
                             reason := "mean_shift", limitName := "mean",
                             limitValue := mean, delta := latest - mean }] }
        else some base
      else
        let r1 :=
          if latest > ucl then
            { base with
              hit := true
              status := statusViolation
              violations := base.violations ++
                [{ timestamp := timePtr lastSample.ts, value := latest,
                   reason := "above_ucl", limitName := "UCL",
                   limitValue := ucl, delta := latest - ucl }] }
          else base
        some (if latest < lcl then
          { r1 with
            hit := true
            status := statusViolation
            violations := r1.violations ++
              [{ timestamp := timePtr lastSample.ts, value := latest,
                 reason := "below_lcl", limitName := "LCL",
                 limitValue := lcl, delta := latest - lcl }] }
        else r1)

/-- The adjacent-pair conjunction of the `EvaluateTrend6` loop: `p prev next`
must hold for every consecutive pair. -/
def adjacentAll (p : Sample → Sample → Bool) : List Sample → Bool
  | [] => true
  | [_] => true
  | a :: b :: rest => p a b && adjacentAll p (b :: rest)

/-- `EvaluateTrend6` from evaluator.go.  `none` models the Go slice panic
`samples[len(samples)-window:]` for a negative `windowSize`. -/
def EvaluateTrend6 (samples : List Sample) (spec : TrendSpec) : Option DetectorResult :=
  let window := if spec.windowSize = 0 then 6 else spec.windowSize
  if (samples.length : ℤ) < window then some (insufficientData ("not enough points"))
  else if window < 0 then none
  else
    let segment := samples.drop (samples.length - window.toNat)
    let epsilon := spec.epsilon
    match segment.getLast? with
    | none => none
    | some lastSample =>
      let increasing := adjacentAll (fun a b => b.value > a.value + epsilon) segment
      let decreasing := adjacentAll (fun a b => b.value < a.value - epsilon) segment
      let base : DetectorResult :=
        { hit := false, status := statusOK, severity := "high",
          observed := toString lastSample.value, limitExpr := "trend" }
      if increasing || decreasing then
        let reason := if increasing then "increasing" else "decreasing"
        let idx : ℤ := (samples.length : ℤ) - 1
        some { base with
          hit := true
          status := statusViolation
          violations := base.violations ++
            [{ timestamp := timePtr lastSample.ts, index := some idx,
               value := lastSample.value, reason := reason, limitName := "trend",
               limitValue := 0, delta := 0 }] }
      else some base

/-- `rangeChartConstants` from constants.go: `(D3, D4)` keyed by subgroup
size. -/
def rangeChartConstants (size : ℤ) : Option (ℚ × ℚ) :=
  if size = 2 then some (0, 3267 / 1000)
  else if size = 3 then some (0, 2574 / 1000)
  else if size = 4 then some (0, 2282 / 1000)
  else if size = 5 then some (0, 2114 / 1000)
  else if size = 6 then some (0, 2004 / 1000)
  else if size = 7 then some (76 / 1000, 1924 / 1000)
  else if size = 8 then some (136 / 1000, 1864 / 1000)
  else if size = 9 then some (184 / 1000, 1816 / 1000)
  else if size = 10 then some (223 / 1000, 1777 / 1000)
  else none

/-- `subgroupRange` from evaluator.go: max minus min of the values; the
`math.IsInf` guard fires exactly for the empty group (sample values carry no
infinities in this model), giving `0`. -/
def subgroupRange (group : List Sample) : ℚ :=
  match extractValues group with
  | [] => 0
  | v :: vs => (vs.foldl max v) - (vs.foldl min v)

/-- `EvaluateRangeChart` from evaluator.go.  `none` models the Go panic on
`lastGroup[len(lastGroup)-1]` when the final group is empty. -/
def EvaluateRangeChart (groups : List (List Sample)) (spec : RangeChartSpec) :
    Option DetectorResult :=
  if groups = [] then some (insufficientData ("no valid subgroups"))
  else
    let minGroups := if spec.minBaselineSubgroups = 0 then 10 else spec.minBaselineSubgroups
    if (groups.length : ℤ) < minGroups then
      some (insufficientData ("baseline subgroups too small"))
    else
      match rangeChartConstants spec.subgroupSize with
      | none => some (invalidConfig ("unsupported subgroup size"))
      | some consts =>
        let ranges := groups.map subgroupRange
        let avg := Mean ranges
        let ucl := consts.2 * avg
        let lcl := consts.1 * avg
        let latestRange := (ranges.getLast?).getD 0
        match (groups.getLast?).getD [] |>.getLast? with
        | none => none
        | some lastSample =>
          let base : DetectorResult :=
            { hit := false, status := statusOK, severity := "high",
              observed := toString latestRange, limitExpr := "range_chart" }
          if latestRange > ucl ∨ latestRange < lcl then
            let reason := if latestRange < lcl then "below_lcl_r" else "above_ucl_r"
            let limit := if latestRange < lcl then lcl else ucl
            some { base with
              hit := true
              status := statusViolation
              violations := base.violations ++
                [{ timestamp := timePtr lastSample.ts, value := latestRange,
                   reason := reason, limitName := "R", limitValue := limit,
                   delta := latestRange - limit }] }
          else some base

/-- `computeTimeToSpec` from evaluator.go. -/
def computeTimeToSpec (slope current : ℚ) (limits : SpecLimitBounds) : Option ℚ :=
  if h : slope > 0 ∧ limits.usl.isSome then
    some ((limits.usl.get h.2 - current) / slope)
  else if h2 : slope < 0 ∧ limits.lsl.isSome then
    some ((current - limits.lsl.get h2.2) / |slope|)
  else none

/-- `EvaluateTPA` from evaluator.go.  The window slice is always in bounds
here (`windowN ≥ 3 and len ≥ windowN` precede it), so the result is total.
The redundant `defaultTPAEpsilon = 0` substitution for `epsilon = 0`
preserves the value and is folded away. -/
def EvaluateTPA (samples : List Sample) (spec : TPASpec) : DetectorResult :=
  if spec.windowN < 3 then invalidConfig ("windowN must be at least 3")
  else if (samples.length : ℤ) < spec.windowN then insufficientData ("not enough samples")
  else
    let window := samples.drop (samples.length - spec.windowN.toNat)
    let lastSample := (window.getLast?).getD {}
    let basis := if spec.regressionTimeBasis = "" then "timestamp" else spec.regressionTimeBasis
    let xVals :=
      if basis = "timestamp" then window.map (fun s => ((⌊s.ts⌋ : ℤ) : ℚ))
      else (List.range window.length).map (fun i => ((i : ℚ) + 1))
    let yVals := window.map (fun s => s.value)
    match LinearRegression xVals yVals with
    | none => invalidConfig ("regression failed")
    | some reg =>
      let slope := reg.1
      let latest := lastSample.value
      let epsilon := spec.epsilon
      let base : DetectorResult :=
        { hit := false, status := statusOK, severity := "high",
          observed := toString latest, limitExpr := "tpa" }
      if |slope| ≤ epsilon then base
      else
        let r1 := match spec.slopeThreshold with
          | some st =>
            if |slope| ≥ st then
              { base with
                hit := true
                status := statusViolation
                violations := base.violations ++
                  [{ timestamp := timePtr lastSample.ts, value := latest,
                     reason := "slope_threshold", limitName := "slope",
                     limitValue := st, delta := |slope| - st }] }
            else base
          | none => base
        match spec.timeToSpecThreshold with
        | none => r1
        | some tst =>
          if spec.requireSpecLimits ∧ spec.specLimits = none then
            invalidConfig ("spec limits required for timeToSpec")
          else
            match spec.specLimits with
            | none => r1
            | some limits =>
              match computeTimeToSpec slope latest limits with
              | none => r1
              | some timeToSpec =>
                if 0 ≤ timeToSpec ∧ timeToSpec ≤ tst then
                  { r1 with
                    hit := true
                    status := statusViolation
                    violations := r1.violations ++
                      [{ timestamp := timePtr lastSample.ts, value := latest,
                         reason := "time_to_spec", limitName := "timeToSpec",
                         limitValue := tst, delta := timeToSpec - tst }] }
                else r1

/-- Successive timestamp deltas in seconds, as accumulated by the loop in
`hasConsecutiveTimestamps` (samples.go). -/
def deltasOf (samples : List Sample) : List ℚ :=
  List.zipWith (fun a b => b.ts - a.ts) samples samples.tail

/-- `hasConsecutiveTimestamps` from samples.go.  The Go loop returns `false`
at the first non-positive delta; checking `any (· ≤ 0)` over all deltas is
equivalent. -/
def hasConsecutiveTimestamps (samples : List Sample) : Bool :=
  if samples.length < 2 then true
  else
    let deltas := deltasOf samples
    if deltas.any (fun d => d ≤ 0) then false
    else
      let median := Median deltas
      if median = 0 then false
      else
        let maxGap := median * 2
        deltas.all (fun d => d ≤ maxGap)

/-- Append `s` to its subgroup's bucket in an association list kept in
first-appearance key order: the model of the Go pair
`grouped map[string][]Sample` / `order []string` in `groupBySubgroup`. -/
def insertAppend : List (String × List Sample) → Sample → List (String × List Sample)
  | [], s => [(s.subgroup, [s])]
  | (k, vs) :: rest, s =>
    if k = s.subgroup then (k, vs ++ [s]) :: rest else (k, vs) :: insertAppend rest s

/-- Bucket lookup in the association list (`grouped[key]`; a missing key
yields the empty bucket). -/
def lookupGroup (m : List (String × List Sample)) (k : String) : List Sample :=
  ((m.find? (fun p => p.1 == k)).map Prod.snd).getD []

/-- `groupBySubgroup` from samples.go: samples with an empty subgroup key
are skipped; buckets are visited in `sort.Strings` order (insertion sort
over the lexicographic order on `String`); buckets smaller than `size` are
dropped, larger ones truncated to their first `size` samples.  `none`
models the Go slice panic `values[:size]` for a negative `size` (reached
exactly when at least one bucket exists). -/
def groupBySubgroup (samples : List Sample) (size : ℤ) : Option (List (List Sample)) :=
  let grouped := samples.foldl
    (fun acc s => if s.subgroup = "" then acc else insertAppend acc s) []
  let order := (grouped.map Prod.fst).insertionSort (· ≤ ·)
  if size < 0 ∧ order ≠ [] then none
  else
    some (order.filterMap (fun k =>
      let values := lookupGroup grouped k
      if (values.length : ℤ) < size then none
      else some (values.take size.toNat)))

/-- Registry state (registry.go): `jobs` maps a ruleId to its live Job,
`closed` records every stop channel that has been closed, `nextId` generates
fresh stop-channel identities.  A Job's payload (rule spec, adapter) is
irrelevant to the settled properties and elided; a Job is identified with
its stop channel. -/
structure RegState where
  jobs : List (String × ℕ) := []
  closed : List ℕ := []
  nextId : ℕ := 0
deriving DecidableEq, Repr

/-- `r.jobs[ruleID]` lookup. -/
def lookupJob (st : RegState) (ruleId : String) : Option ℕ :=
  (st.jobs.find? (fun p => p.1 == ruleId)).map Prod.snd

/-- `Registry.Schedule` from registry.go: under the lock, close any prior
Job's stop channel for the ruleId, then install a fresh Job. -/
def scheduleOp (ruleId : String) (st : RegState) : RegState :=
  match lookupJob st ruleId with
  | some j =>
    { jobs := st.jobs.map (fun p => if p.1 = ruleId then (ruleId, st.nextId) else p),
      closed := j :: st.closed, nextId := st.nextId + 1 }
  | none =>
    { jobs := st.jobs ++ [(ruleId, st.nextId)], closed := st.closed, nextId := st.nextId + 1 }

/-- `Registry.Unschedule` from registry.go: close and drop a present Job;
no-op otherwise. -/
def unscheduleOp (ruleId : String) (st : RegState) : RegState :=
  match lookupJob st ruleId with
  | some j =>
    { jobs := st.jobs.filter (fun p => ¬ p.1 = ruleId),
      closed := j :: st.closed, nextId := st.nextId }
  | none => st

/-- A serialized sequence of registry mutations (the Go registry serializes
`Schedule`/`Unschedule` under `r.mu`). -/
inductive RegOp where
  | schedule (ruleId : String)
  | unschedule (ruleId : String)
deriving DecidableEq, Repr

def regStep (st : RegState) : RegOp → RegState
  | RegOp.schedule rid => scheduleOp rid st
  | RegOp.unschedule rid => unscheduleOp rid st

/-- Run a sequence of registry operations from the fresh registry
(`NewRegistry` starts with an empty jobs map). -/
def regRun (ops : List RegOp) : RegState :=
  ops.foldl regStep {}

/-- `security.IsSafeIdentifier` (identifier_validation.go): the regex
`[a-zA-Z_][a-zA-Z0-9_]*` anchored at both ends. -/
def isSafeIdentifier (s : String) : Bool :=
  match s.toList with
  | [] => false
  | c :: rest => (c.isAlpha || c = '_') && rest.all (fun d => d.isAlphanum || d = '_')

/-- `security.Allowlist` (allowlist.go); schemas are never consulted by the
settled properties. -/
structure Allowlist where
  tables : List String := []
deriving DecidableEq, Repr

/-- `Allowlist.AllowsTable`: an empty allowlist allows everything. -/
def allowsTable (a : Allowlist) (table : String) : Bool :=
  if a.tables = [] then true else a.tables.contains table

/-- `security.Limits` (limits.go); durations are not modelled. -/
structure Limits where
  minPollSeconds : ℤ := 0
  maxPollSeconds : ℤ := 0
  maxWindowSeconds : ℤ := 0
  maxSampleRows : ℤ := 0
deriving DecidableEq, Repr

/-- `RobustZSpec` from types.go. -/
structure RobustZSpec where
  baselineWindowSeconds : ℤ := 0
  evalWindowSeconds : ℤ := 0
  zWarn : ℚ := 0
  zCrit : ℚ := 0
  minSamples : ℤ := 0
deriving DecidableEq, Repr

/-- `MissingDataSpec` from types.go. -/
structure MissingDataSpec where
  maxGapSeconds : ℤ := 0
deriving DecidableEq, Repr

/-- `DetectorSpec` from types.go: the type tag plus one optional config per
variant (the rule-service and scheduler-service copies of these structs are
field-for-field identical and share this embedding). -/
structure DetectorSpec where
  detectorType : String := ""
  threshold : Option ThresholdSpec := none
  robustZ : Option RobustZSpec := none
  missingData : Option MissingDataSpec := none
  specLimit : Option SpecLimitSpec := none
  shewhart : Option ShewhartSpec := none
  rangeChart : Option RangeChartSpec := none
  trend : Option TrendSpec := none
  tpa : Option TPASpec := none
deriving DecidableEq, Repr

/-- `ParameterSpec` from types.go. -/
structure ParameterSpec where
  parameterName : String := ""
  valueColumn : String := ""
  detector : DetectorSpec := {}
deriving DecidableEq, Repr

/-- `ClauseSpec` from types.go. -/
structure ClauseSpec where
  column : String := ""
  op : String := ""
  value : GoVal := GoVal.other
deriving DecidableEq, Repr

/-- `WhereSpec` from types.go (`Type` is the `and`/`or` joiner). -/
structure WhereSpec where
  joiner : String := ""
  clauses : List ClauseSpec := []
deriving DecidableEq, Repr

/-- `SourceSpec` from types.go (`Where` renamed `whereSpec`: `where` is a
Lean keyword). -/
structure SourceSpec where
  table : String := ""
  timestampColumn : String := ""
  whereSpec : Option WhereSpec := none
  valueColumn : String := ""
deriving DecidableEq, Repr

/-- `RuleSpec` from types.go. -/
structure RuleSpec where
  name : String := ""
  description : String := ""
  connectionRef : String := ""
  source : SourceSpec := {}
  parameters : List ParameterSpec := []
  pollIntervalSeconds : ℤ := 0
  cooldownSeconds : Option ℤ := none
  enabled : Bool := false
  parameterName : String := ""
  aggregation : String := ""
  windowSeconds : Option ℤ := none
  condition : ConditionSpec := { op := "" }
deriving DecidableEq, Repr

/-- `fallbackParamName` from jobs.go (scheduler service). -/
def fallbackParamName (name valueColumn : String) : String :=
  if name ≠ "" then name else valueColumn

/-- `normalizeParameters` from jobs.go (scheduler service): a non-empty
parameters list is kept, with empty `parameterName`s filled from the
parameter's `valueColumn`; otherwise a single threshold parameter is
synthesized from the legacy fields when `source.valueColumn` is set. -/
def normalizeParameters (spec : RuleSpec) : List ParameterSpec :=
  if spec.parameters ≠ [] then
    spec.parameters.map (fun p =>
      if p.parameterName = "" then { p with parameterName := p.valueColumn } else p)
  else if spec.source.valueColumn = "" then []
  else
    [{ parameterName := fallbackParamName spec.parameterName spec.source.valueColumn,
       valueColumn := spec.source.valueColumn,
       detector :=
        { detectorType := "threshold",
          threshold := some { op := spec.condition.op, value := spec.condition.value,
                              min := spec.condition.min, max := spec.condition.max } } }]

/-- `normalizeParameters` from runtime_validate_rule.go (validation
package): same legacy synthesis but without the per-parameter name fill and
without the fallback (`ParameterName` is copied as-is). -/
def validationNormalizeParameters (spec : RuleSpec) : List ParameterSpec :=
  if spec.parameters ≠ [] then spec.parameters
  else if spec.source.valueColumn = "" then []
  else
    [{ parameterName := spec.parameterName,
       valueColumn := spec.source.valueColumn,
       detector :=
        { detectorType := "threshold",
          threshold := some { op := spec.condition.op, value := spec.condition.value,
                              min := spec.condition.min, max := spec.condition.max } } }]

/-- `ErrorDetail` from the rule-service rules package (shape fixed by its
uses in parser.go and validator.go). -/
structure ErrorDetail where
  field : String
  problem : String
  hint : String
deriving DecidableEq, Repr

/-- `ParseError` from the rule-service rules package. -/
structure ParseError where
  code : String
  message : String
  details : List ErrorDetail
deriving DecidableEq, Repr

/-- `fmt.Sprintf("parameters[%d]...")` field paths of validator.go. -/
def paramField (index : ℕ) (suffix : String) : String :=
  "parameters[" ++ toString index ++ "]" ++ suffix

/-- `validateBaseline` from validator.go. -/
def validateBaseline (baseline : BaselineSpec) (field : String) : Option ErrorDetail :=
  match baseline.lastN, baseline.timeRange with
  | some _, some _ =>
    some { field := field, problem := "invalid", hint := "Use lastN or timeRange" }
  | none, none =>
    some { field := field, problem := "missing", hint := "Provide lastN or timeRange" }
  | some n, none =>
    if n ≤ 0 then
      some { field := field ++ ".lastN", problem := "invalid", hint := "lastN must be positive" }
    else none
  | none, some tr =>
    if tr.start = "" ∨ tr.stop = "" then
      some { field := field ++ ".timeRange", problem := "invalid",
             hint := "Provide start and end" }
    else none

/-- `isSupportedRangeChartSize` from validator.go. -/
def isSupportedRangeChartSize (size : ℤ) : Bool :=
  size == 2 || size == 3 || size == 4 || size == 5 || size == 6 ||
  size == 7 || size == 8 || size == 9 || size == 10

/-- `validateDetector` from validator.go: per-detector static constraints,
returning the first failing detail. -/
def validateDetector (detector : DetectorSpec) (pollInterval : ℤ) (index : ℕ) :
    Option ErrorDetail :=
  if detector.detectorType = "threshold" then
    match detector.threshold with
    | none =>
      some { field := paramField index ".detector.threshold", problem := "missing",
             hint := "Provide threshold" }
    | some t =>
      if t.op = "between" then
        match t.min, t.max with
        | some mn, some mx =>
          if mn ≥ mx then
            some { field := paramField index ".detector.threshold",
                   problem := "invalid between range", hint := "min before max" }
          else none
        | _, _ =>
          some { field := paramField index ".detector.threshold",
                 problem := "invalid between range", hint := "min before max" }
      else if t.op = "" then
        some { field := paramField index ".detector.threshold", problem := "missing",
               hint := "Example: above 80" }
      else none
  else if detector.detectorType = "robust_zscore" then
    match detector.robustZ with
    | none =>
      some { field := paramField index ".detector.robustZ", problem := "missing",
             hint := "Provide robustZ settings" }
    | some rz =>
      if rz.baselineWindowSeconds < rz.evalWindowSeconds then
        some { field := paramField index ".detector.robustZ.baselineWindowSeconds",
               problem := "invalid", hint := "baseline window must cover eval window" }
      else if rz.minSamples < 20 then
        some { field := paramField index ".detector.robustZ.minSamples",
               problem := "too small", hint := "minSamples at least 20" }
      else none
  else if detector.detectorType = "missing_data" then
    match detector.missingData with
    | none =>
      some { field := paramField index ".detector.missingData", problem := "missing",
             hint := "Provide missingData settings" }
    | some md =>
      if md.maxGapSeconds < pollInterval then
        some { field := paramField index ".detector.missingData.maxGapSeconds",
               problem := "too small", hint := "maxGapSeconds under pollIntervalSeconds" }
      else none
  else if detector.detectorType = "spec_limit" then
    match detector.specLimit with
    | none =>
      some { field := paramField index ".detector.specLimit", problem := "missing",
             hint := "Provide specLimit settings" }
    | some sl =>
      let mode := if sl.mode = "" then "spec" else sl.mode
      if mode ≠ "spec" ∧ mode ≠ "control" ∧ mode ≠ "both" then
        some { field := paramField index ".detector.specLimit.mode", problem := "invalid",
               hint := "Use spec, control, or both" }
      else if (mode = "spec" ∨ mode = "both") ∧
          sl.specLimits.elim true (fun b => b.usl.isNone && b.lsl.isNone) = true then
        some { field := paramField index ".detector.specLimit.specLimits",
               problem := "missing", hint := "Provide USL or LSL" }
      else if (mode = "control" ∨ mode = "both") ∧
          sl.controlLimits.elim true (fun b => b.ucl.isNone && b.lcl.isNone) = true then
        some { field := paramField index ".detector.specLimit.controlLimits",
               problem := "missing", hint := "Provide UCL or LCL" }
      else none
  else if detector.detectorType = "shewhart" then
    match detector.shewhart with
    | none =>
      some { field := paramField index ".detector.shewhart", problem := "missing",
             hint := "Provide shewhart settings" }
    | some sh =>
      match validateBaseline sh.baseline (paramField index ".detector.shewhart.baseline") with
      | some err => some err
      | none =>
        if sh.sigmaMultiplier ≠ 0 ∧ (sh.sigmaMultiplier < 2 ∨ sh.sigmaMultiplier > 3) then
          some { field := paramField index ".detector.shewhart.sigmaMultiplier",
                 problem := "invalid", hint := "Use 2 or 3" }
        else if sh.minBaselineN < 0 then
          some { field := paramField index ".detector.shewhart.minBaselineN",
                 problem := "invalid", hint := "minBaselineN must be nonnegative" }
        else none
  else if detector.detectorType = "range_chart" then
    match detector.rangeChart with
    | none =>
      some { field := paramField index ".detector.rangeChart", problem := "missing",
             hint := "Provide rangeChart settings" }
    | some rc =>
      if ¬ isSupportedRangeChartSize rc.subgroupSize then
        some { field := paramField index ".detector.rangeChart.subgroupSize",
               problem := "invalid", hint := "Supported subgroupSize: 2-10" }
      else
        match validateBaseline rc.baseline (paramField index ".detector.rangeChart.baseline") with
        | some err => some err
        | none =>
          let mode := if rc.subgrouping.mode = "" then "consecutive" else rc.subgrouping.mode
          if mode ≠ "consecutive" ∧ mode ≠ "column" then
            some { field := paramField index ".detector.rangeChart.subgrouping.mode",
                   problem := "invalid", hint := "Use consecutive or column" }
          else if mode = "column" ∧ rc.subgrouping.column = "" then
            some { field := paramField index ".detector.rangeChart.subgrouping.column",
                   problem := "missing", hint := "Provide column name" }
          else none
  else if detector.detectorType = "trend" then
    match detector.trend with
    | none =>
      some { field := paramField index ".detector.trend", problem := "missing",
             hint := "Provide trend settings" }
    | some tr =>
      if tr.windowSize < 2 then
        some { field := paramField index ".detector.trend.windowSize", problem := "invalid",
               hint := "windowSize must be at least 2" }
      else if tr.epsilon < 0 then
        some { field := paramField index ".detector.trend.epsilon", problem := "invalid",
               hint := "epsilon must be nonnegative" }
      else none
  else if detector.detectorType = "tpa" then
    match detector.tpa with
    | none =>
      some { field := paramField index ".detector.tpa", problem := "missing",
             hint := "Provide tpa settings" }
    | some tp =>
      if tp.windowN < 3 then
        some { field := paramField index ".detector.tpa.windowN", problem := "invalid",
               hint := "windowN must be at least 3" }
      else if tp.regressionTimeBasis ≠ "" ∧ tp.regressionTimeBasis ≠ "index" ∧
          tp.regressionTimeBasis ≠ "timestamp" then
        some { field := paramField index ".detector.tpa.regressionTimeBasis",
               problem := "invalid", hint := "Use index or timestamp" }
      else if tp.requireSpecLimits ∧ tp.specLimits = none then
        some { field := paramField index ".detector.tpa.specLimits", problem := "missing",
               hint := "Provide spec limits" }
      else if tp.slopeThreshold = none ∧ tp.timeToSpecThreshold = none then
        some { field := paramField index ".detector.tpa", problem := "invalid",
               hint := "Provide slopeThreshold or timeToSpecThreshold" }
      else none
  else
    some { field := paramField index ".detector.type", problem := "unsupported",
           hint := "Use a supported detector type" }

/-- Contiguous-substring test on character lists (`strings.Contains`). -/
def charsContain (sub : List Char) : List Char → Bool
  | [] => sub.isEmpty
  | c :: rest => sub.isPrefixOf (c :: rest) || charsContain sub rest

/-- `strings.Contains s sub`. -/
def strContains (s sub : String) : Bool :=
  charsContain sub.toList s.toList

/-- `isNumericType` from runtime_validate_rule.go and stepper.go (the two
copies are identical). -/
def isNumericType (colType : String) : Bool :=
  let value := colType.toLower
  strContains value "int" || strContains value "decimal" || strContains value "numeric" ||
  strContains value "float" || strContains value "double" || strContains value "real"

/-- `isTimeType` from stepper.go. -/
def isTimeType (colType : String) : Bool :=
  let value := colType.toLower
  strContains value "time" || strContains value "date"

/-- `needsNumeric` from stepper.go. -/
def needsNumeric (detectorType : String) : Bool :=
  detectorType == "spec_limit" || detectorType == "shewhart" || detectorType == "range_chart" ||
  detectorType == "trend" || detectorType == "tpa"

/-- `mcp.Column` (a listed column's name and SQL type). -/
structure Column where
  name : String
  colType : String
deriving DecidableEq, Repr

/-- `colTypes[name]` where `colTypes` is built by overwriting in list order
(a Go map write loop): the last declaration of a name wins, a missing name
yields `""`. -/
def colTypeOf (cols : List Column) (name : String) : String :=
  ((cols.reverse.find? (fun c => c.name == name)).map (fun c => c.colType)).getD ""

/-- Membership in `colSet`. -/
def colPresent (cols : List Column) (name : String) : Bool :=
  cols.any (fun c => c.name == name)

/-- Pure model of a `mcp.DbMcpAdapter` (C6): the introspection flag, the
introspection results, and the outcome of each probe query.  The probes are
modelled by their outcome alone — `RuntimeValidateRule` only ever
propagates their error and discards their data. -/
structure AdapterData where
  supportsIntrospection : Bool := true
  listTablesRes : Except String (List String) := Except.ok []
  listColumnsRes : Except String (List Column) := Except.ok []
  fetchRecentRowsRes : Except String Unit := Except.ok ()
  queryAggregateRes : Except String Unit := Except.ok ()
  queryLatestValueRes : Except String Unit := Except.ok ()
deriving Repr

/-- The per-parameter body of the `RuntimeValidateRule` loop
(runtime_validate_rule.go).  `none` models the Go nil-pointer panic on
`param.Detector.RobustZ` when a `robust_zscore` parameter carries no
robustZ config. -/
def runtimeValidateParam (adapter : AdapterData) (spec : RuleSpec) (cols : List Column)
    (param : ParameterSpec) : Option (Except String Unit) :=
  if ¬ colPresent cols param.valueColumn then
    some (Except.error ("value column not found"))
  else if param.detector.detectorType = "robust_zscore" then
    if ¬ isNumericType (colTypeOf cols param.valueColumn) then
      some (Except.error ("non-numeric column for robust_zscore"))
    else
      match param.detector.robustZ with
      | none => none
      | some _ =>
        match adapter.fetchRecentRowsRes with
        | Except.error e => some (Except.error e)
        | Except.ok _ => some (Except.ok ())
  else if param.detector.detectorType = "range_chart" then
    match param.detector.rangeChart with
    | none => some (Except.error ("range_chart config missing"))
    | some rc =>
      if ¬ isSupportedRangeChartSize rc.subgroupSize then
        some (Except.error ("unsupported subgroup size"))
      else if ¬ isNumericType (colTypeOf cols param.valueColumn) then
        some (Except.error ("non-numeric column for range_chart"))
      else if rc.subgrouping.mode = "column" ∧ rc.subgrouping.column = "" then
        some (Except.error ("subgrouping column required"))
      else if rc.subgrouping.mode = "column" ∧ ¬ colPresent cols rc.subgrouping.column then
        some (Except.error ("subgrouping column not found"))
      else
        match adapter.fetchRecentRowsRes with
        | Except.error e => some (Except.error e)
        | Except.ok _ => some (Except.ok ())
  else
    let numericGate :=
      if (param.detector.detectorType = "shewhart" ∨ param.detector.detectorType = "trend" ∨
          param.detector.detectorType = "tpa" ∨ param.detector.detectorType = "spec_limit") ∧
          ¬ isNumericType (colTypeOf cols param.valueColumn) then
        some (Except.error ("non-numeric column for detector"))
      else none
    match numericGate with
    | some e => some e
    | none =>
      if param.detector.detectorType = "threshold" ∧ spec.aggregation ≠ "" ∧
          spec.aggregation ≠ "latest" ∧ spec.windowSeconds.isSome then
        match adapter.queryAggregateRes with
        | Except.error e => some (Except.error e)
        | Except.ok _ => some (Except.ok ())
      else
        match adapter.queryLatestValueRes with
        | Except.error e => some (Except.error e)
        | Except.ok _ => some (Except.ok ())

/-- Fold of the parameter loop: first error (or panic) stops the loop. -/
def runtimeValidateParams (adapter : AdapterData) (spec : RuleSpec) (cols : List Column) :
    List ParameterSpec → Option (Except String Unit)
  | [] => some (Except.ok ())
  | p :: rest =>
    match runtimeValidateParam adapter spec cols p with
    | none => none
    | some (Except.error e) => some (Except.error e)
    | some (Except.ok _) => runtimeValidateParams adapter spec cols rest

/-- `RuntimeValidateRule` from runtime_validate_rule.go as a pure function
of the adapter data: bounds, identifier, allowlist, capability,
table/column existence and per-parameter type/probe checks, in source
order.  `none` models a Go panic inside the loop. -/
def RuntimeValidateRule (adapter : AdapterData) (spec : RuleSpec) (allowlist : Allowlist)
    (limits : Limits) : Option (Except String Unit) :=
  if spec.pollIntervalSeconds < limits.minPollSeconds ∨
      spec.pollIntervalSeconds > limits.maxPollSeconds then
    some (Except.error ("poll interval out of bounds"))
  else if spec.aggregation ≠ "" ∧ spec.aggregation ≠ "latest" ∧
      (spec.windowSeconds.elim true (fun w => w ≤ 0)) = true then
    some (Except.error ("windowSeconds required"))
  else if spec.aggregation ≠ "" ∧ spec.aggregation ≠ "latest" ∧
      (spec.windowSeconds.elim false (fun w => w > limits.maxWindowSeconds)) = true then
    some (Except.error ("windowSeconds exceeds limit"))
  else if ¬ (isSafeIdentifier spec.source.table ∧
      isSafeIdentifier spec.source.timestampColumn) then
    some (Except.error ("unsafe identifier"))
  else
    let params := validationNormalizeParameters spec
    if params = [] then some (Except.error ("parameters required"))
    else if params.any (fun p => ¬ isSafeIdentifier p.valueColumn) then
      some (Except.error ("unsafe value column"))
    else if (spec.source.whereSpec.elim false
        (fun w => w.clauses.any (fun c => ¬ isSafeIdentifier c.column))) = true then
      some (Except.error ("unsafe where identifier"))
    else if ¬ allowsTable allowlist spec.source.table then
      some (Except.error ("table not allowlisted"))
    else if ¬ adapter.supportsIntrospection then
      some (Except.error ("adapter does not support introspection"))
    else
      match adapter.listTablesRes with
      | Except.error e => some (Except.error e)
      | Except.ok tables =>
        if ¬ tables.contains spec.source.table then
          some (Except.error ("table not found"))
        else
          match adapter.listColumnsRes with
          | Except.error e => some (Except.error e)
          | Except.ok cols =>
            if ¬ colPresent cols spec.source.timestampColumn then
              some (Except.error ("timestamp column not found"))
            else runtimeValidateParams adapter spec cols params

/-- `subgroupSpec` from stepper.go (only `Kind` and `Column` are consulted
by `validateStepperMetadata`). -/
structure StepperSubgroup where
  kind : String := ""
  column : String := ""
deriving DecidableEq, Repr

/-- `validateStepperMetadata` from stepper.go as a pure function of the
adapter data.  `none` models the Go panic on `spec.Parameters[0]` for an
empty parameters list. -/
def validateStepperMetadata (adapter : AdapterData) (allowlist : Allowlist) (spec : RuleSpec)
    (subgroup : Option StepperSubgroup) : Option (Except String Unit) :=
  if ¬ allowsTable allowlist spec.source.table then
    some (Except.error ("table not allowlisted"))
  else
    match adapter.listTablesRes with
    | Except.error e => some (Except.error e)
    | Except.ok tables =>
      if ¬ tables.contains spec.source.table then
        some (Except.error ("table not found"))
      else
        match adapter.listColumnsRes with
        | Except.error e => some (Except.error e)
        | Except.ok cols =>
          if ¬ colPresent cols spec.source.timestampColumn then
            some (Except.error ("timestamp column not found"))
          else
            match spec.parameters.head? with
            | none => none
            | some param =>
              let valueType := colTypeOf cols param.valueColumn
              if valueType = "" then
                some (Except.error ("value column not found"))
              else if needsNumeric param.detector.detectorType ∧
                  ¬ isNumericType valueType then
                some (Except.error ("value column must be numeric"))
              else if (subgroup.elim false
                  (fun sg => sg.kind == "column" && ¬ colPresent cols sg.column)) = true then
                some (Except.error ("subgroup column not found"))
              else if (param.detector.detectorType = "trend" ∨
                  param.detector.detectorType = "tpa") ∧
                  ¬ isTimeType (colTypeOf cols spec.source.timestampColumn) then
                some (Except.error ("timestamp column must be time type"))
              else some (Except.ok ())

/-!
Prompt-parser embedding (rule-service rules/parser.go).  Each Go
`regexp.MustCompile` pattern is transcribed as a deterministic
parser over `List Char` with Go's leftmost-first (Perl-style) match
semantics: `pFind` scans start positions left to right, and alternations
try branches in the pattern's order.  All settled inputs are simple enough
that greedy token consumption coincides with full backtracking.
-/

/-- Case-insensitive literal consumption; returns the remaining input. -/
def litChars : List Char → List Char → Option (List Char)
  | [], cs => some cs
  | _ :: _, [] => none
  | w :: ws, c :: cs => if w.toLower = c.toLower then litChars ws cs else none

/-- Literal token (`abc` in a pattern), capture dropped. -/
def pLit (w : String) (cs : List Char) : Option (Unit × List Char) :=
  (litChars w.toList cs).map (fun rest => ((), rest))

/-- Literal token keeping the original matched text (for captures fed to
`normalizeOp`). -/
def pLitCap (w : String) (cs : List Char) : Option (String × List Char) :=
  (litChars w.toList cs).map (fun rest => (String.mk (cs.take w.toList.length), rest))

/-- `\s+`. -/
def pWs1 (cs : List Char) : Option (Unit × List Char) :=
  let s := cs.span Char.isWhitespace
  if s.1 = [] then none else some ((), s.2)

/-- `\s*`. -/
def pWs0 (cs : List Char) : Option (Unit × List Char) :=
  some ((), cs.dropWhile Char.isWhitespace)

/-- `[a-zA-Z_][a-zA-Z0-9_]*`. -/
def pIdent (cs : List Char) : Option (String × List Char) :=
  match cs with
  | [] => none
  | c :: rest =>
    if c.isAlpha || c = '_' then
      let s := rest.span (fun d => d.isAlphanum || d = '_')
      some (String.mk (c :: s.1), s.2)
    else none

/-- `[0-9]+`. -/
def pDigits (cs : List Char) : Option (String × List Char) :=
  let s := cs.span Char.isDigit
  if s.1 = [] then none else some (String.mk s.1, s.2)

/-- `[0-9]+(\.[0-9]+)?` returning the captured text. -/
def pNum (cs : List Char) : Option (String × List Char) :=
  match pDigits cs with
  | none => none
  | some (ds, rest) =>
    match rest with
    | '.' :: fr =>
      let s := fr.span Char.isDigit
      if s.1 = [] then some (ds, rest)
      else some (ds ++ "." ++ String.mk s.1, s.2)
    | _ => some (ds, rest)

/-- `[^,]+` returning the captured text. -/
def pNoComma (cs : List Char) : Option (String × List Char) :=
  let s := cs.span (fun c => ¬ c = ',')
  if s.1 = [] then none else some (String.mk s.1, s.2)

/-- Sequencing of parsers. -/
def pSeq {α β : Type} (p : List Char → Option (α × List Char))
    (q : α → List Char → Option (β × List Char)) (cs : List Char) :
    Option (β × List Char) :=
  match p cs with
  | none => none
  | some (a, rest) => q a rest

/-- Ordered alternation (first branch of the pattern wins). -/
def pAlt {α : Type} : List (List Char → Option (α × List Char)) → List Char →
    Option (α × List Char)
  | [], _ => none
  | p :: ps, cs =>
    match p cs with
    | some r => some r
    | none => pAlt ps cs

def pPure {α : Type} (a : α) (cs : List Char) : Option (α × List Char) :=
  some (a, cs)

/-- `FindStringSubmatch`: leftmost match, scanning start positions left to
right. -/
def pFind {α : Type} (p : List Char → Option (α × List Char)) : List Char → Option α
  | [] => (p []).map Prod.fst
  | c :: rest =>
    match p (c :: rest) with
    | some (a, _) => some (a)
    | none => pFind p rest

/-- `FindAllStringSubmatch(…, -1)`: non-overlapping leftmost matches,
resuming after each match's end.  Fuel is the input length: every pattern
used here consumes at least one character per match. -/
def pFindAll {α : Type} (p : List Char → Option (α × List Char)) :
    ℕ → List Char → List α
  | 0, _ => []
  | _, [] => []
  | fuel + 1, c :: rest =>
    match p (c :: rest) with
    | some (a, after) => a :: pFindAll p fuel after
    | none => pFindAll p fuel rest

/-- `tableRe`: `table\s+([a-zA-Z_][a-zA-Z0-9_]*)`. -/
def tableP : List Char → Option (String × List Char) :=
  pSeq (pLit "table") (fun _ => pSeq pWs1 (fun _ => pIdent))

/-- `valueColRe`: `(value|column)\s+([a-zA-Z_][a-zA-Z0-9_]*)`. -/
def valueColP : List Char → Option (String × List Char) :=
  pSeq (pAlt [pLit "value", pLit "column"]) (fun _ => pSeq pWs1 (fun _ => pIdent))

/-- `timestampRe`: `(timestamp|time)\s+([a-zA-Z_][a-zA-Z0-9_]*)`. -/
def timestampP : List Char → Option (String × List Char) :=
  pSeq (pAlt [pLit "timestamp", pLit "time"]) (fun _ => pSeq pWs1 (fun _ => pIdent))

/-- `betweenRe`: `between\s+(num)\s+(?:and|to)\s+(num)`. -/
def betweenP : List Char → Option ((String × String) × List Char) :=
  pSeq (pLit "between") (fun _ => pSeq pWs1 (fun _ =>
    pSeq pNum (fun n1 => pSeq pWs1 (fun _ =>
      pSeq (pAlt [pLit "and", pLit "to"]) (fun _ => pSeq pWs1 (fun _ =>
        pSeq pNum (fun n2 => pPure (n1, n2))))))))

/-- The core of `rangeRe` after the optional `in\s+` prefix:
`range\s+from\s+(num)\s+(?:to|up\s+to|through)\s+(num)`. -/
def rangeCoreP : List Char → Option ((String × String) × List Char) :=
  pSeq (pLit "range") (fun _ => pSeq pWs1 (fun _ =>
    pSeq (pLit "from") (fun _ => pSeq pWs1 (fun _ =>
      pSeq pNum (fun n1 => pSeq pWs1 (fun _ =>
        pSeq (pAlt [pLit "to",
                    pSeq (pLit "up") (fun _ => pSeq pWs1 (fun _ => pLit "to")),
                    pLit "through"]) (fun _ => pSeq pWs1 (fun _ =>
          pSeq pNum (fun n2 => pPure (n1, n2))))))))))

/-- `rangeRe`: `(?:in\s+)?` then the core (greedy prefix first). -/
def rangeP : List Char → Option ((String × String) × List Char) :=
  pAlt [pSeq (pLit "in") (fun _ => pSeq pWs1 (fun _ => rangeCoreP)), rangeCoreP]

/-- `compareRe`:
`(above|greater than|>=|>|below|less than|<=|<|==|!=)\s*(num)`. -/
def compareP : List Char → Option ((String × String) × List Char) :=
  pSeq (pAlt [pLitCap "above", pLitCap "greater than", pLitCap ">=", pLitCap ">",
              pLitCap "below", pLitCap "less than", pLitCap "<=", pLitCap "<",
              pLitCap "==", pLitCap "!="]) (fun op =>
    pSeq pWs0 (fun _ => pSeq pNum (fun n => pPure (op, n))))

/-- `missingRe`: `(no\s+data|missing|stopped\s+reporting)`. -/
def missingP : List Char → Option (Unit × List Char) :=
  pAlt [pSeq (pLit "no") (fun _ => pSeq pWs1 (fun _ => pLit "data")),
        pLit "missing",
        pSeq (pLit "stopped") (fun _ => pSeq pWs1 (fun _ => pLit "reporting"))]

/-- `\w` of Go regexp. -/
def isWordChar (c : Char) : Bool := c.isAlphanum || c = '_'

/-- Does one of `words` match at the head of `l` with a trailing word
boundary? -/
def wordAtHead (words : List String) (l : List Char) : Bool :=
  words.any (fun w =>
    match litChars w.toList l with
    | none => false
    | some rest =>
      match rest with
      | [] => true
      | c :: _ => ¬ isWordChar c)

/-- `abnormalRe`: `\b(abnormal|anomaly|outlier|spike)\b`, scanning with the
previous character threaded for the leading boundary. -/
def findBoundedWord (words : List String) : Option Char → List Char → Bool
  | _, [] => false
  | prev, c :: rest =>
    ((prev.elim true (fun pc => ¬ isWordChar pc)) && wordAtHead words (c :: rest)) ||
      findBoundedWord words (some c) rest

def matchAbnormal (s : String) : Bool :=
  findBoundedWord ["abnormal", "anomaly", "outlier", "spike"] none s.toList

/-- The duration-unit alternation
`(s|sec|secs|seconds|m|min|mins|minutes|h|hr|hrs|hours)` in pattern
order (leftmost-first: `s` wins over `seconds`, which is what Go reports
too). -/
def unitAltP : List Char → Option (String × List Char) :=
  pAlt [pLitCap "s", pLitCap "sec", pLitCap "secs", pLitCap "seconds",
        pLitCap "m", pLitCap "min", pLitCap "mins", pLitCap "minutes",
        pLitCap "h", pLitCap "hr", pLitCap "hrs", pLitCap "hours"]

/-- `windowRe`: `(last|over)\s+([0-9]+)\s*(unit)`. -/
def windowP : List Char → Option ((String × String) × List Char) :=
  pSeq (pAlt [pLit "last", pLit "over"]) (fun _ => pSeq pWs1 (fun _ =>
    pSeq pDigits (fun n => pSeq pWs0 (fun _ =>
      pSeq unitAltP (fun u => pPure (n, u))))))

/-- `intervalRe`: `(every|each)\s+([0-9]+)?\s*(unit)`; the optional digits
group is tried greedily first (an absent group captures `""`). -/
def intervalP : List Char → Option ((String × String) × List Char) :=
  pSeq (pAlt [pLit "every", pLit "each"]) (fun _ => pSeq pWs1 (fun _ =>
    pAlt [pSeq pDigits (fun n => pSeq pWs0 (fun _ =>
            pSeq unitAltP (fun u => pPure (n, u)))),
          pSeq pWs0 (fun _ => pSeq unitAltP (fun u => pPure ("", u)))]))

/-- The where-clause operator alternation `(==|=|!=|>=|<=|>|<|in)`. -/
def whereOpP : List Char → Option (String × List Char) :=
  pAlt [pLitCap "==", pLitCap "=", pLitCap "!=", pLitCap ">=", pLitCap "<=",
        pLitCap ">", pLitCap "<", pLitCap "in"]

/-- `whereClause`: `where\s+(ident)\s*(op)\s*([^,]+)`. -/
def whereClauseP : List Char → Option ((String × String × String) × List Char) :=
  pSeq (pLit "where") (fun _ => pSeq pWs1 (fun _ =>
    pSeq pIdent (fun col => pSeq pWs0 (fun _ =>
      pSeq whereOpP (fun op => pSeq pWs0 (fun _ =>
        pSeq pNoComma (fun v => pPure (col, op, v))))))))

/-- `andClause`: `and\s+(ident)\s*(op)\s*([^,]+)`. -/
def andClauseP : List Char → Option ((String × String × String) × List Char) :=
  pSeq (pLit "and") (fun _ => pSeq pWs1 (fun _ =>
    pSeq pIdent (fun col => pSeq pWs0 (fun _ =>
      pSeq whereOpP (fun op => pSeq pWs0 (fun _ =>
        pSeq pNoComma (fun v => pPure (col, op, v))))))))

/-- Numeric value of a digit string. -/
def digitsVal (ds : List Char) : ℕ :=
  ds.foldl (fun n c => n * 10 + (c.toNat - 48)) 0

/-- Model of `strconv.Atoi` restricted to the digit-only strings the
capture groups can produce (`none` is the error case). -/
def parseNatDigits (s : String) : Option ℕ :=
  if s ≠ "" ∧ s.toList.all Char.isDigit then some (digitsVal s.toList) else none

/-- Model of `strconv.ParseFloat` restricted to optionally signed plain
decimal literals — the only shapes produced by the parser's capture groups
and by the settled inputs. -/
def parseFloatLit (s : String) : Option ℚ :=
  let step : List Char → Option ℚ := fun cs =>
    match cs.span Char.isDigit with
    | (ds, rest) =>
      if ds = [] then none
      else
        match rest with
        | [] => some (digitsVal ds)
        | '.' :: fr =>
          match fr.span Char.isDigit with
          | (fs, rest2) =>
            if fs = [] ∨ rest2 ≠ [] then none
            else some ((digitsVal ds : ℚ) + (digitsVal fs : ℚ) / (10 ^ fs.length : ℕ))
        | _ => none
  match s.toList with
  | '+' :: cs => step cs
  | '-' :: cs => (step cs).map Neg.neg
  | cs => step cs

/-- `parseDurationSeconds` from parser.go. -/
def parseDurationSeconds (value unit : String) : ℤ :=
  match parseNatDigits value with
  | none => 0
  | some amount =>
    if (amount : ℤ) ≤ 0 then 0
    else
      let u := unit.toLower
      if u.startsWith "s" then amount
      else if u.startsWith "m" then 60 * amount
      else if u.startsWith "h" then 3600 * amount
      else 0

/-- `normalizeOp` from parser.go (the `Contains` checks run on the original
capture, the case analysis on its trimmed lowercase form). -/
def normalizeOp (op : String) : String :=
  let l := op.trim.toLower
  if l = "above" ∨ l = ">" ∨ l = ">=" ∨ l = "greater than" then
    if strContains op "=" then ">=" else ">"
  else if l = "below" ∨ l = "<" ∨ l = "<=" ∨ l = "less than" then
    if strContains op "=" then "<=" else "<"
  else if l = "=" ∨ l = "==" then "=="
  else if l = "!=" then "!="
  else if l = "in" then "in"
  else op

/-- `strings.Trim(s, quotes)` for the quote cutset of `parseValue`. -/
def trimQuotes (s : String) : String :=
  let isQ : Char → Bool := fun c => c = '\'' || c = '"'
  String.mk (((s.toList.dropWhile isQ).reverse.dropWhile isQ).reverse)

/-- `parseValue` from parser.go, collapsed onto `GoVal`: numeric literals
become numbers; list, boolean and plain-string results all land in
`GoVal.other` (no settled property inspects a where-clause value). -/
def parseValue (raw : String) : GoVal :=
  let trimmed := trimQuotes raw.trim
  match parseFloatLit trimmed with
  | some q => GoVal.num q
  | none => GoVal.other

/-- `ConditionSpecFromThreshold` from parser.go. -/
def ConditionSpecFromThreshold (threshold : Option ThresholdSpec) : ConditionSpec :=
  match threshold with
  | none => { op := "" }
  | some t => { op := t.op, value := t.value, min := t.min, max := t.max }

/-- `buildDetector` from parser.go. -/
def buildDetector (detectorType : String) (threshold : Option ThresholdSpec)
    (pollInterval windowSeconds : ℤ) : DetectorSpec :=
  if detectorType = "robust_zscore" then
    let evalWindow := if windowSeconds > 0 then windowSeconds else 300
    { detectorType := "robust_zscore",
      robustZ := some { baselineWindowSeconds := 3600, evalWindowSeconds := evalWindow,
                        zWarn := 3, zCrit := 5, minSamples := 20 } }
  else if detectorType = "missing_data" then
    let gap := pollInterval * 2
    let gap := if gap < pollInterval then pollInterval else gap
    { detectorType := "missing_data", missingData := some { maxGapSeconds := gap } }
  else
    { detectorType := "threshold", threshold := threshold }

/-- Modelled from the spec: `rules.RuleDraft` — its Go definition file is
not under src/ (only parser.go and the API handlers use it); the spec gives
its shape as `(table, timestampColumn, parameters?[], where?)`. -/
structure RuleDraft where
  table : String := ""
  timestampColumn : String := ""
  parameters : List ParameterSpec := []
  whereSpec : Option WhereSpec := none
deriving DecidableEq, Repr

/-- `ParsePromptWithDraft` from parser.go, in source order: lexical
extraction, draft fallback, detector-type inference, threshold chain
(`betweenRe`, then `rangeRe`, then `compareRe`), where clauses, parameter
assembly and final ambiguity check. -/
def ParsePromptWithDraft (prompt connectionRef : String) (draft : Option RuleDraft) :
    Except ParseError RuleSpec :=
  let clean := prompt.trim
  if clean = "" then
    Except.error
      { code := "RULE_AMBIGUOUS", message := "empty rule prompt",
        details := [{ field := "rulePrompt", problem := "empty",
                      hint := "Provide a rule prompt" }] }
  else
    let cs := clean.toList
    let spec0 : RuleSpec :=
      { connectionRef := connectionRef, parameters := [],
        pollIntervalSeconds := 60, enabled := true }
    let tableRes := pFind tableP cs
    let details0 : List ErrorDetail := []
    let sourceTable :=
      match tableRes with
      | some t => t
      | none => (draft.map (fun d => d.table)).getD ""
    let details1 :=
      if tableRes.isNone ∧ (draft.elim true (fun d => d.table = "")) = true then
        details0 ++ [{ field := "source.table", problem := "missing",
                       hint := "Example: table telemetry" }]
      else details0
    let timeRes := pFind timestampP cs
    let sourceTs :=
      match timeRes with
      | some t => t
      | none => (draft.map (fun d => d.timestampColumn)).getD ""
    let details2 :=
      if timeRes.isNone ∧ (draft.elim true (fun d => d.timestampColumn = "")) = true then
        details1 ++ [{ field := "source.timestampColumn", problem := "missing",
                       hint := "Example: timestamp ts" }]
      else details1
    let draftWhere : Option WhereSpec := draft.bind (fun d => d.whereSpec)
    let windowSeconds : ℤ :=
      match pFind windowP cs with
      | some wm => let secs := parseDurationSeconds wm.1 wm.2; if secs > 0 then secs else 0
      | none => 0
    let pollSeconds : ℤ :=
      match pFind intervalP cs with
      | some im =>
        let v := if im.1 = "" then "1" else im.1
        let secs := parseDurationSeconds v im.2
        if secs > 0 then secs else spec0.pollIntervalSeconds
      | none => spec0.pollIntervalSeconds
    let detectorType0 :=
      if (pFind missingP cs).isSome then "missing_data"
      else if matchAbnormal clean then "robust_zscore"
      else ""
    let threshold : Option ThresholdSpec :=
      match pFind betweenP cs with
      | some bm =>
        some { op := "between", min := parseFloatLit bm.1, max := parseFloatLit bm.2 }
      | none =>
        match pFind rangeP cs with
        | some bm =>
          some { op := "between", min := parseFloatLit bm.1, max := parseFloatLit bm.2 }
        | none =>
          match pFind compareP cs with
          | some cm =>
            some { op := normalizeOp cm.1,
                   value := some (GoVal.num ((parseFloatLit cm.2).getD 0)) }
          | none => none
    let detectorType :=
      if detectorType0 = "" ∧ threshold.isSome then "threshold" else detectorType0
    let whereClauses : List ClauseSpec :=
      (match pFind whereClauseP cs with
       | some w => [{ column := w.1, op := normalizeOp w.2.1, value := parseValue w.2.2 }]
       | none => []) ++
      (pFindAll andClauseP cs.length cs).map
        (fun a => { column := a.1, op := normalizeOp a.2.1, value := parseValue a.2.2 })
    let sourceWhere :=
      if whereClauses ≠ [] then some { joiner := "and", clauses := whereClauses }
      else draftWhere
    let draftParams : List ParameterSpec := (draft.map (fun d => d.parameters)).getD []
    let afterParams :
        List ParameterSpec × String × String × ConditionSpec × List ErrorDetail :=
      if draftParams = [] then
        match pFind valueColP cs with
        | some col =>
          ([{ parameterName := col, valueColumn := col,
              detector := buildDetector detectorType threshold pollSeconds windowSeconds }],
           col, col, ConditionSpecFromThreshold threshold, details2)
        | none =>
          ([], "", "", { op := "" },
           details2 ++ [{ field := "parameters", problem := "missing",
                          hint := "Provide column names or draft parameters" }])
      else
        (draftParams.map (fun p =>
          let p1 := if p.parameterName.trim = "" then
              { p with parameterName := p.valueColumn } else p
          if p1.detector.detectorType.trim = "" then
            { p1 with
              detector := buildDetector detectorType threshold pollSeconds windowSeconds }
          else p1),
         "", "", { op := "" }, details2)
    let params := afterParams.1
    let paramName0 := afterParams.2.1
    let legacyValueColumn := afterParams.2.2.1
    let legacyCondition := afterParams.2.2.2.1
    let details3 := afterParams.2.2.2.2
    let paramName :=
      if paramName0 = "" ∧ params ≠ [] then
        ((params.head?).map (fun p => p.parameterName)).getD ""
      else paramName0
    let details4 :=
      if detectorType = "" then
        details3 ++ [{ field := "condition", problem := "missing",
                       hint := "Example: above 80" }]
      else if detectorType = "threshold" ∧ threshold.isNone then
        details3 ++ [{ field := "condition", problem := "missing",
                       hint := "Example: above 80" }]
      else details3
    if details4 ≠ [] then
      Except.error
        { code := "RULE_AMBIGUOUS",
          message := "rule prompt is missing required fields", details := details4 }
    else
      Except.ok { spec0 with
        source := { table := sourceTable, timestampColumn := sourceTs,
                    whereSpec := sourceWhere, valueColumn := legacyValueColumn },
        parameters := params,
        pollIntervalSeconds := pollSeconds,
        parameterName := paramName,
        condition := legacyCondition }

/-- The bucket of one subgroup key: all samples carrying that key, in input
order (the specification-side description of `grouped[k]`). -/
def subgroupBucket (samples : List Sample) (k : String) : List Sample :=
  samples.filter (fun s => s.subgroup = k)

/-- The subgroup key of an emitted group (its first sample's key). -/
def keyOfGroup (g : List Sample) : String :=
  ((g.head?).map (fun s => s.subgroup)).getD ""

/-!
Concrete fixtures used by the settled properties (inputs of
counterexamples and witnesses).
-/

/-- A legacy-shape rule spec: empty parameters, non-empty legacy
`parameterName` differing from `source.valueColumn`. -/
def c7legacySpec : RuleSpec :=
  { parameters := [], parameterName := "p",
    source := { valueColumn := "v" }, condition := { op := ">" } }

/-- A parameters-shape rule spec with one unnamed parameter. -/
def c7paramSpec : RuleSpec :=
  { parameters := [{ parameterName := "", valueColumn := "v" }] }

/-- A Shewhart detector spec with a well-formed baseline and
`sigmaMultiplier = 5/2`. -/
def c5shewhart : ShewhartSpec :=
  { baseline := { lastN := some 10 }, sigmaMultiplier := 5 / 2 }

/-- The detector carrying `c5shewhart`. -/
def c5detector : DetectorSpec :=
  { detectorType := "shewhart", shewhart := some c5shewhart }

/-- Columns of the mock table: a numeric `value` column and an
integer-typed `ts` column (not a temporal type). -/
def c6cols : List Column :=
  [{ name := "value", colType := "float" }, { name := "ts", colType := "int" }]

/-- Mock adapter exposing table `metrics` with `c6cols`. -/
def c6adapter : AdapterData :=
  { supportsIntrospection := true,
    listTablesRes := Except.ok ["metrics"],
    listColumnsRes := Except.ok c6cols }

/-- A trend parameter on the `value` column. -/
def c6param : ParameterSpec :=
  { parameterName := "value", valueColumn := "value",
    detector := { detectorType := "trend", trend := some { windowSize := 6 } } }

/-- A trend rule over `metrics(value, ts)`. -/
def c6spec : RuleSpec :=
  { source := { table := "metrics", timestampColumn := "ts" },
    parameters := [c6param],
    pollIntervalSeconds := 10 }

def c6allowlist : Allowlist := { tables := ["metrics"] }

/-- `security.DefaultLimits()` (limits.go), durations dropped. -/
def c6limits : Limits :=
  { minPollSeconds := 5, maxPollSeconds := 3600,
    maxWindowSeconds := 86400, maxSampleRows := 1000 }

/-- Samples across two subgroups, key `b` first. -/
def c10samples : List Sample :=
  [{ ts := 0, value := 1, subgroup := "b" },
   { ts := 0, value := 2, subgroup := "a" },
   { ts := 0, value := 3, subgroup := "a" }]

/-- `groupBySubgroup c10samples 1`: bucket `a` truncated to its first
sample, then bucket `b`. -/
def c10groups : List (List Sample) :=
  [[{ ts := 0, value := 2, subgroup := "a" }],
   [{ ts := 0, value := 1, subgroup := "b" }]]

/-!
Settled properties.
-/

/-- C9: `Median` of the empty list is `0` (it never fails); for an even,
non-empty list it averages the two middle entries of the sorted copy; `MAD`
of the empty list is `0` for every centre; consequently `EvaluateRobustZ`
on an empty baseline takes the zero-MAD branch against median `0`,
reporting baseline median and MAD `0` and hitting exactly when the latest
value differs from `0` by more than `defaultEpsilon`. -/
theorem C9_median_empty_and_even :
    Median [] = 0 ∧
    (∀ l : List ℚ, l ≠ [] → l.length % 2 = 0 →
      Median l = ((l.insertionSort (· ≤ ·)).getD (l.length / 2 - 1) 0 +
                  (l.insertionSort (· ≤ ·)).getD (l.length / 2) 0) / 2) ∧
    (∀ m : ℚ, MAD [] m = 0) ∧
    (∀ latest zWarn zCrit : ℚ,
      (EvaluateRobustZ [] latest zWarn zCrit).baselineMedian = some 0 ∧
      (EvaluateRobustZ [] latest zWarn zCrit).baselineMAD = some 0 ∧
      ((EvaluateRobustZ [] latest zWarn zCrit).hit = true ↔
        |latest - 0| > defaultEpsilon)) := by
  refine ⟨rfl, ?_, ?_, ?_⟩
  · intro l h1 h2
    simp only [Median, if_neg h1, h2, if_true]
  · intro m
    simp [MAD]
  · intro latest zWarn zCrit
    refine ⟨?_, ?_, ?_⟩
    · unfold EvaluateRobustZ
      simp [Median, MAD]
      split_ifs <;> rfl
    · unfold EvaluateRobustZ
      simp [Median, MAD]
      split_ifs <;> rfl
    · by_cases hc : |latest| ≤ defaultEpsilon
      · simp [EvaluateRobustZ, Median, MAD, hc, not_lt.mpr hc]
      · simp [EvaluateRobustZ, Median, MAD, hc, not_le.mp hc]

/-- Witness for C9 at the concrete even-length list `[1, 3]`. -/
theorem C9_median_empty_and_even_witness :
    (([1, 3] : List ℚ) ≠ [] ∧ ([1, 3] : List ℚ).length % 2 = 0) ∧
    Median [1, 3] = ((([1, 3] : List ℚ).insertionSort (· ≤ ·)).getD 0 0 +
      (([1, 3] : List ℚ).insertionSort (· ≤ ·)).getD 1 0) / 2 :=
  ⟨⟨by decide, by decide⟩, C9_median_empty_and_even.2.1 [1, 3] (by decide) (by decide)⟩

/-- C2 counterexample: on a baseline of twenty `10.0`s with latest `10.0`
(`zWarn = 3`, `zCrit = 5`), `EvaluateRobustZ` leaves `AnomalyScore` at its
`nil` initial value — it does not return an anomaly score of `0` as
claimed. -/
theorem C2_robustz_counterexample :
    (EvaluateRobustZ (List.replicate 20 10) 10 3 5).anomalyScore = none ∧
    (EvaluateRobustZ (List.replicate 20 10) 10 3 5).hit = false := by
  refine ⟨?_, ?_⟩ <;> with_unfolding_all rfl

/-- C2 (amended): on the all-`10.0` baseline, latest `10.0` gives
`hit = false` with the anomaly score left unset (`nil`), not `0`; latest
`15.0` gives `hit = true`, severity `high`, anomaly score `+∞`; and in
general, whenever the baseline MAD is `0`, the detector hits exactly when
`|latest − median|` exceeds `defaultEpsilon`. -/
theorem C2_robustz_zero_mad :
    ((EvaluateRobustZ (List.replicate 20 10) 10 3 5).hit = false ∧
     (EvaluateRobustZ (List.replicate 20 10) 10 3 5).anomalyScore = none) ∧
    ((EvaluateRobustZ (List.replicate 20 10) 15 3 5).hit = true ∧
     (EvaluateRobustZ (List.replicate 20 10) 15 3 5).severity = "high" ∧
     (EvaluateRobustZ (List.replicate 20 10) 15 3 5).anomalyScore = some Score.inf) ∧
    (∀ (samples : List ℚ) (latest zWarn zCrit : ℚ),
      MAD samples (Median samples) = 0 →
      ((EvaluateRobustZ samples latest zWarn zCrit).hit = true ↔
        |latest - Median samples| > defaultEpsilon)) := by
  refine ⟨⟨?_, ?_⟩, ⟨?_, ?_, ?_⟩, ?_⟩
  · with_unfolding_all rfl
  · with_unfolding_all rfl
  · with_unfolding_all rfl
  · with_unfolding_all rfl
  · with_unfolding_all rfl
  · intro samples latest zWarn zCrit h
    by_cases hc : |latest - Median samples| ≤ defaultEpsilon
    · simp [EvaluateRobustZ, h, hc, not_lt.mpr hc]
    · simp [EvaluateRobustZ, h, hc, not_le.mp hc]

/-- Witness for C2's zero-MAD clause at the empty baseline and latest `1`. -/
theorem C2_robustz_zero_mad_witness :
    MAD [] (Median []) = 0 ∧
    ((EvaluateRobustZ [] 1 3 5).hit = true ↔ |1 - Median []| > defaultEpsilon) :=
  ⟨rfl, C2_robustz_zero_mad.2.2 [] 1 3 5 rfl⟩

/-- C3: the prompt
`table telemetry column temp timestamp ts in range from 20 up to 40`
parses (with no draft) to a single parameter whose detector is a threshold
with op `between`, `min = 20`, `max = 40`; for every `between` condition
the check is inclusive on both ends; and evaluating the parsed threshold at
value `35` hits while value `10` does not. -/
theorem C3_range_prompt_between :
    ((ParsePromptWithDraft
        "table telemetry column temp timestamp ts in range from 20 up to 40" "conn-1"
        none).map (fun s => s.parameters.map (fun p => p.detector))) =
      Except.ok [{ detectorType := "threshold",
                   threshold := some { op := "between", min := some 20, max := some 40 } }] ∧
    (∀ (cond : ConditionSpec) (mn mx v : ℚ), cond.op = "between" →
      cond.min = some mn → cond.max = some mx →
      ((EvaluateCondition cond (GoVal.num v)).1 = true ↔ mn ≤ v ∧ v ≤ mx)) ∧
    (EvaluateThresholdDetector { op := "between", min := some 20, max := some 40 }
      (GoVal.num 35)).hit = true ∧
    (EvaluateThresholdDetector { op := "between", min := some 20, max := some 40 }
      (GoVal.num 10)).hit = false := by
  refine ⟨?_, ?_, ?_, ?_⟩
  · with_unfolding_all rfl
  · intro cond mn mx v h1 h2 h3
    simp [EvaluateCondition, toFloat, h1, h2, h3]
  · with_unfolding_all rfl
  · with_unfolding_all rfl

/-- Witness for C3's inclusivity clause at `min = 0`, `max = 1`,
value `1/2`. -/
theorem C3_range_prompt_between_witness :
    (({ op := "between", min := some 0, max := some 1 } : ConditionSpec).op = "between" ∧
     ({ op := "between", min := some 0, max := some 1 } : ConditionSpec).min = some 0 ∧
     ({ op := "between", min := some 0, max := some 1 } : ConditionSpec).max = some 1) ∧
    ((EvaluateCondition { op := "between", min := some 0, max := some 1 }
        (GoVal.num (1/2))).1 = true ↔ (0 : ℚ) ≤ 1/2 ∧ (1/2 : ℚ) ≤ 1) :=
  ⟨⟨rfl, rfl, rfl⟩, C3_range_prompt_between.2.1 _ 0 1 (1/2) rfl rfl rfl⟩

lemma deltasOf_cons (a b : Sample) (rest : List Sample) :
    deltasOf (a :: b :: rest) = (b.ts - a.ts) :: deltasOf (b :: rest) := rfl

lemma deltasOf_pos {samples : List Sample}
    (h : List.Chain' (fun a b => a.ts < b.ts) samples) :
    ∀ d ∈ deltasOf samples, 0 < d := by
  induction samples with
  | nil => intro d hd; simp [deltasOf] at hd
  | cons a rest ih =>
    cases rest with
    | nil => intro d hd; simp [deltasOf] at hd
    | cons b rest2 =>
      intro d hd
      rw [deltasOf_cons] at hd
      rw [List.chain'_cons] at h
      rcases List.mem_cons.mp hd with h1 | h2
      · simpa [h1] using h.1
      · exact ih h.2 d h2

/-- C8: `hasConsecutiveTimestamps` returns `false` for every sample list
with an equal or non-increasing consecutive timestamp pair (a non-positive
successive delta), and `true` for every strictly ascending list whose
successive deltas all stay within twice their positive median. -/
theorem C8_hasConsecutiveTimestamps :
    (∀ samples : List Sample, (∃ d ∈ deltasOf samples, d ≤ 0) →
      hasConsecutiveTimestamps samples = false) ∧
    (∀ samples : List Sample, List.Chain' (fun a b => a.ts < b.ts) samples →
      0 < Median (deltasOf samples) →
      (∀ d ∈ deltasOf samples, d ≤ 2 * Median (deltasOf samples)) →
      hasConsecutiveTimestamps samples = true) := by
  constructor
  · rintro samples ⟨d, hd, hdle⟩
    have hlen : ¬ samples.length < 2 := by
      intro hl
      match samples, hl with
      | [], _ => simp [deltasOf] at hd
      | [a], _ => simp [deltasOf] at hd
      | a :: b :: rest, hl => simp at hl; omega
    have hany : (deltasOf samples).any (fun d => d ≤ 0) = true :=
      List.any_eq_true.mpr ⟨d, hd, by simpa using hdle⟩
    simp [hasConsecutiveTimestamps, hlen, hany]
  · intro samples hch hmed hle
    by_cases hlen : samples.length < 2
    · simp [hasConsecutiveTimestamps, hlen]
    · have hpos := deltasOf_pos hch
      have hany : (deltasOf samples).any (fun d => d ≤ 0) = false := by
        simp only [List.any_eq_false]
        intro d hd
        simpa using not_le.mpr (hpos d hd)
      have hmz : Median (deltasOf samples) ≠ 0 := ne_of_gt hmed
      have hall : (deltasOf samples).all (fun d => d ≤ Median (deltasOf samples) * 2) = true := by
        rw [List.all_eq_true]
        intro d hd
        simpa [mul_comm] using hle d hd
      simp [hasConsecutiveTimestamps, hlen, hany, hmz, hall]

/-- Witness for C8: two equal timestamps are rejected; the strictly
ascending `0, 10, 20` with uniform gaps is accepted. -/
theorem C8_hasConsecutiveTimestamps_witness :
    ((∃ d ∈ deltasOf [({ ts := 0 } : Sample), { ts := 0 }], d ≤ 0) ∧
      hasConsecutiveTimestamps [({ ts := 0 } : Sample), { ts := 0 }] = false) ∧
    (List.Chain' (fun a b => a.ts < b.ts)
        [({ ts := 0 } : Sample), { ts := 10 }, { ts := 20 }] ∧
      0 < Median (deltasOf [({ ts := 0 } : Sample), { ts := 10 }, { ts := 20 }]) ∧
      hasConsecutiveTimestamps [({ ts := 0 } : Sample), { ts := 10 }, { ts := 20 }] = true) := by
  have hd0 : deltasOf [({ ts := 0 } : Sample), { ts := 0 }] = [0] := by
    with_unfolding_all rfl
  have hex : ∃ d ∈ deltasOf [({ ts := 0 } : Sample), { ts := 0 }], d ≤ 0 := by
    rw [hd0]; exact ⟨0, by simp, le_refl 0⟩
  have hch : List.Chain' (fun a b => a.ts < b.ts)
      [({ ts := 0 } : Sample), { ts := 10 }, { ts := 20 }] := by
    simp only [List.chain'_cons, List.chain'_singleton, and_true]
    norm_num
  have hd1 : deltasOf [({ ts := 0 } : Sample), { ts := 10 }, { ts := 20 }] = [10, 10] := by
    with_unfolding_all rfl
  have hmed : 0 < Median (deltasOf [({ ts := 0 } : Sample), { ts := 10 }, { ts := 20 }]) := by
    rw [hd1]
    have h10 : Median [(10 : ℚ), 10] = 10 := by with_unfolding_all rfl
    rw [h10]; norm_num
  have hle : ∀ d ∈ deltasOf [({ ts := 0 } : Sample), { ts := 10 }, { ts := 20 }],
      d ≤ 2 * Median (deltasOf [({ ts := 0 } : Sample), { ts := 10 }, { ts := 20 }]) := by
    rw [hd1]
    have h10 : Median [(10 : ℚ), 10] = 10 := by with_unfolding_all rfl
    rw [h10]
    intro d hd
    rcases List.mem_cons.mp hd with h | h
    · rw [h]; norm_num
    · rcases List.mem_singleton.mp h with h2; rw [h2]; norm_num
  exact ⟨⟨hex, C8_hasConsecutiveTimestamps.1 _ hex⟩,
         ⟨hch, hmed, C8_hasConsecutiveTimestamps.2 _ hch hmed hle⟩⟩

/-- C7 counterexample: with empty `parameters`, legacy
`parameterName = "p"` and `source.valueColumn = "v"`, the synthesized
parameter keeps `parameterName = "p"` — not `source.valueColumn` as
claimed. -/
theorem C7_normalize_counterexample :
    (normalizeParameters c7legacySpec).map (fun p => p.parameterName) = ["p"] ∧
    ("p" : String) ≠ "v" :=
  ⟨by with_unfolding_all rfl, by decide⟩

/-- C7 (amended): for a non-empty parameters list, normalization returns
the same list with empty `parameterName`s replaced by the parameter's
`valueColumn` and detectors unchanged; for an empty list with non-empty
`source.valueColumn`, it synthesizes one threshold parameter whose
`valueColumn` is `source.valueColumn` and whose `parameterName` is the
legacy `spec.parameterName` when non-empty, else `source.valueColumn`. -/
theorem C7_normalize_amended : ∀ spec : RuleSpec,
    (spec.parameters ≠ [] →
      normalizeParameters spec = spec.parameters.map (fun p =>
        if p.parameterName = "" then { p with parameterName := p.valueColumn } else p)) ∧
    (spec.parameters = [] → spec.source.valueColumn ≠ "" →
      normalizeParameters spec =
        [{ parameterName :=
             if spec.parameterName = "" then spec.source.valueColumn else spec.parameterName,
           valueColumn := spec.source.valueColumn,
           detector := { detectorType := "threshold",
                         threshold := some { op := spec.condition.op,
                                             value := spec.condition.value,
                                             min := spec.condition.min,
                                             max := spec.condition.max } } }]) := by
  intro spec
  constructor
  · intro h
    simp [normalizeParameters, h]
  · intro h1 h2
    by_cases hn : spec.parameterName = ""
    · simp [normalizeParameters, h1, h2, fallbackParamName, hn]
    · simp [normalizeParameters, h1, h2, fallbackParamName, hn]

/-- Witness for C7 on both branches: name-filling on `c7paramSpec` and
legacy synthesis on `c7legacySpec`. -/
theorem C7_normalize_amended_witness :
    (c7paramSpec.parameters ≠ [] ∧
      normalizeParameters c7paramSpec = [{ parameterName := "v", valueColumn := "v" }]) ∧
    (c7legacySpec.parameters = [] ∧ c7legacySpec.source.valueColumn ≠ "" ∧
      normalizeParameters c7legacySpec =
        [{ parameterName := "p", valueColumn := "v",
           detector := { detectorType := "threshold",
                         threshold := some { op := ">" } } }]) := by
  have h1 : c7paramSpec.parameters ≠ [] := by simp [c7paramSpec]
  have e1 := (C7_normalize_amended c7paramSpec).1 h1
  have h2 : c7legacySpec.parameters = [] := rfl
  have h3 : c7legacySpec.source.valueColumn ≠ "" := by simp [c7legacySpec]
  have e2 := (C7_normalize_amended c7legacySpec).2 h2 h3
  refine ⟨⟨h1, ?_⟩, ⟨h2, h3, ?_⟩⟩
  · rw [e1]; with_unfolding_all rfl
  · rw [e2]; with_unfolding_all rfl

/-- C5 counterexample: the static validator accepts
`sigmaMultiplier = 5/2`, which is none of 0, 2, 3 — the accepted set is
not `(0, 2, 3)` alone. -/
theorem C5_sigma_counterexample :
    validateDetector c5detector 60 0 = none ∧
    ¬(c5shewhart.sigmaMultiplier = 0 ∨ c5shewhart.sigmaMultiplier = 2 ∨
      c5shewhart.sigmaMultiplier = 3) := by
  constructor
  · with_unfolding_all rfl
  · have h : c5shewhart.sigmaMultiplier = 5 / 2 := rfl
    rw [h]
    norm_num

/-- C5 (amended): for a shewhart detector with well-formed baseline and
non-negative `minBaselineN`, the static validator accepts
`sigmaMultiplier` exactly when it is `0` (the default) or lies in the
closed interval `[2, 3]`; any other value is rejected with a detail on
field `parameters[i].detector.shewhart.sigmaMultiplier`. -/
theorem C5_sigma_amended : ∀ (d : DetectorSpec) (sh : ShewhartSpec) (poll : ℤ) (i : ℕ),
    d.detectorType = "shewhart" → d.shewhart = some sh →
    validateBaseline sh.baseline (paramField i ".detector.shewhart.baseline") = none →
    0 ≤ sh.minBaselineN →
    ((validateDetector d poll i = none ↔
       (sh.sigmaMultiplier = 0 ∨ (2 ≤ sh.sigmaMultiplier ∧ sh.sigmaMultiplier ≤ 3))) ∧
     (¬(sh.sigmaMultiplier = 0 ∨ (2 ≤ sh.sigmaMultiplier ∧ sh.sigmaMultiplier ≤ 3)) →
       validateDetector d poll i =
         some { field := paramField i ".detector.shewhart.sigmaMultiplier",
                problem := "invalid", hint := "Use 2 or 3" })) := by
  intro d sh poll i ht hsh hb hn
  have hnn : ¬ sh.minBaselineN < 0 := not_lt.mpr hn
  have E : validateDetector d poll i =
      (if sh.sigmaMultiplier ≠ 0 ∧ (sh.sigmaMultiplier < 2 ∨ sh.sigmaMultiplier > 3) then
        some { field := paramField i ".detector.shewhart.sigmaMultiplier",
               problem := "invalid", hint := "Use 2 or 3" }
      else none) := by
    simp only [validateDetector, ht, hsh]
    simp only [hb]
    simp [hnn]
  constructor
  · rw [E]
    split_ifs with hs
    · constructor
      · intro h0; exact absurd h0 (by simp)
      · intro hr
        exfalso
        rcases hr with h0 | ⟨h2, h3⟩
        · exact hs.1 h0
        · rcases hs.2 with hlt | hgt
          · exact absurd h2 (not_le.mpr hlt)
          · exact absurd h3 (not_le.mpr hgt)
    · push_neg at hs
      constructor
      · intro _
        by_cases h0 : sh.sigmaMultiplier = 0
        · exact Or.inl h0
        · exact Or.inr (hs h0)
      · intro _; rfl
  · intro hr
    rw [E, if_pos]
    rw [not_or] at hr
    refine ⟨hr.1, ?_⟩
    rcases not_and_or.mp hr.2 with h2 | h3
    · exact Or.inl (not_le.mp h2)
    · exact Or.inr (not_le.mp h3)

/-- Witness for C5 at `c5detector` (`sigmaMultiplier = 5/2`, accepted). -/
theorem C5_sigma_amended_witness :
    (c5detector.detectorType = "shewhart" ∧ c5detector.shewhart = some c5shewhart ∧
     validateBaseline c5shewhart.baseline (paramField 0 ".detector.shewhart.baseline") = none ∧
     0 ≤ c5shewhart.minBaselineN) ∧
    (validateDetector c5detector 60 0 = none ↔
      (c5shewhart.sigmaMultiplier = 0 ∨
        (2 ≤ c5shewhart.sigmaMultiplier ∧ c5shewhart.sigmaMultiplier ≤ 3))) := by
  have h1 : c5detector.detectorType = "shewhart" := rfl
  have h2 : c5detector.shewhart = some c5shewhart := rfl
  have h3 : validateBaseline c5shewhart.baseline
      (paramField 0 ".detector.shewhart.baseline") = none := by with_unfolding_all rfl
  have h4 : (0 : ℤ) ≤ c5shewhart.minBaselineN := by
    have h0 : c5shewhart.minBaselineN = 0 := rfl
    rw [h0]
  exact ⟨⟨h1, h2, h3, h4⟩, (C5_sigma_amended c5detector c5shewhart 60 0 h1 h2 h3 h4).1⟩

/-- Registry invariant: distinct ruleIds and all live job ids below the
fresh-id counter. -/
def regInvariant (st : RegState) : Prop :=
  (st.jobs.map Prod.fst).Nodup ∧ ∀ p ∈ st.jobs, p.2 < st.nextId

lemma lookupJob_none (st : RegState) (rid : String) (h : lookupJob st rid = none) :
    rid ∉ st.jobs.map Prod.fst := by
  intro hmem
  rcases List.mem_map.mp hmem with ⟨p, hp, hfst⟩
  unfold lookupJob at h
  have hfind := Option.map_eq_none'.mp h
  have := List.find?_eq_none.mp hfind p hp
  simp [hfst] at this

lemma lookupJob_mem_keys (st : RegState) (rid : String) (j : ℕ)
    (h : lookupJob st rid = some j) :
    rid ∈ st.jobs.map Prod.fst ∧ ∃ p ∈ st.jobs, p.1 = rid ∧ p.2 = j := by
  unfold lookupJob at h
  rcases Option.map_eq_some'.mp h with ⟨p, hfind, hsnd⟩
  have hp := List.mem_of_find?_eq_some hfind
  have hpe := List.find?_some hfind
  have hfst : p.1 = rid := by simpa using hpe
  exact ⟨List.mem_map.mpr ⟨p, hp, hfst⟩, p, hp, hfst, hsnd⟩

lemma keys_schedule_replace (jobs : List (String × ℕ)) (rid : String) (n : ℕ) :
    (jobs.map (fun p => if p.1 = rid then (rid, n) else p)).map Prod.fst =
      jobs.map Prod.fst := by
  induction jobs with
  | nil => rfl
  | cons p rest ih =>
    by_cases hp : p.1 = rid
    · simp [hp, ih]
    · simp [hp, ih]

lemma find?_replace (jobs : List (String × ℕ)) (rid : String) (n : ℕ)
    (hmem : rid ∈ jobs.map Prod.fst) :
    ((jobs.map (fun p => if p.1 = rid then (rid, n) else p)).find?
      (fun p => p.1 == rid)).map Prod.snd = some n := by
  induction jobs with
  | nil => simp at hmem
  | cons q rest ih =>
    by_cases hq : q.1 = rid
    · simp only [List.map_cons, hq, if_true]
      rw [List.find?_cons_of_pos _ (by simp)]
      simp
    · have hmem2 : rid ∈ rest.map Prod.fst := by
        rcases List.mem_map.mp hmem with ⟨p, hp, he⟩
        rcases List.mem_cons.mp hp with heq | hp2
        · exact absurd (by rw [← heq]; exact he) hq
        · exact List.mem_map.mpr ⟨p, hp2, he⟩
      simp only [List.map_cons, hq, if_false]
      rw [List.find?_cons_of_neg _ (by simp [hq])]
      exact ih hmem2

lemma regStep_inv (st : RegState) (op : RegOp) (h : regInvariant st) :
    regInvariant (regStep st op) := by
  rcases op with rid | rid
  · cases hl : lookupJob st rid with
    | some j =>
      have e : regStep st (RegOp.schedule rid) =
          { jobs := st.jobs.map (fun p => if p.1 = rid then (rid, st.nextId) else p),
            closed := j :: st.closed, nextId := st.nextId + 1 } := by
        simp [regStep, scheduleOp, hl]
      rw [e]
      constructor
      · rw [keys_schedule_replace]
        exact h.1
      · intro p hp
        rcases List.mem_map.mp hp with ⟨q, hq, hgq⟩
        show p.2 < st.nextId + 1
        by_cases hq1 : q.1 = rid
        · simp only [hq1, if_true] at hgq
          simp [← hgq]
        · simp only [hq1, if_false] at hgq
          have := h.2 q hq
          simp only [← hgq]
          omega
    | none =>
      have e : regStep st (RegOp.schedule rid) =
          { jobs := st.jobs ++ [(rid, st.nextId)],
            closed := st.closed, nextId := st.nextId + 1 } := by
        simp [regStep, scheduleOp, hl]
      rw [e]
      constructor
      · have hnot := lookupJob_none st rid hl
        simp only [List.map_append]
        rw [List.nodup_append]
        exact ⟨h.1, by simp, by simpa using fun hmem => hnot hmem⟩
      · intro p hp
        show p.2 < st.nextId + 1
        rcases List.mem_append.mp hp with hm | hm
        · have := h.2 p hm
          omega
        · simp at hm
          simp [hm]
  · cases hl : lookupJob st rid with
    | some j =>
      have e : regStep st (RegOp.unschedule rid) =
          { jobs := st.jobs.filter (fun p => ¬ p.1 = rid),
            closed := j :: st.closed, nextId := st.nextId } := by
        simp [regStep, unscheduleOp, hl]
      rw [e]
      constructor
      · exact List.Nodup.sublist ((List.filter_sublist _).map Prod.fst) h.1
      · intro p hp
        exact h.2 p (List.mem_of_mem_filter hp)
    | none =>
      have e : regStep st (RegOp.unschedule rid) = st := by
        simp [regStep, unscheduleOp, hl]
      rw [e]
      exact h

lemma regRun_inv (ops : List RegOp) : regInvariant (regRun ops) := by
  have base : regInvariant {} := ⟨List.nodup_nil, by intro p hp; simp at hp⟩
  have gen : ∀ (l : List RegOp) (st : RegState), regInvariant st →
      regInvariant (l.foldl regStep st) := by
    intro l
    induction l with
    | nil => intro st hst; exact hst
    | cons op rest ih => intro st hst; exact ih _ (regStep_inv st op hst)
  exact gen ops {} base

lemma lookupJob_schedule_self (st : RegState) (rid : String) (j : ℕ)
    (h : lookupJob st rid = some j) :
    lookupJob (scheduleOp rid st) rid = some st.nextId := by
  have hmem := (lookupJob_mem_keys st rid j h).1
  unfold scheduleOp
  rw [h]
  unfold lookupJob
  exact find?_replace st.jobs rid st.nextId hmem

/-- C4: over every serialized sequence of `Schedule`/`Unschedule`
operations from the fresh registry, the jobs map holds at most one Job per
ruleId (its key list is duplicate-free); and a `Schedule` for a ruleId that
already holds a Job closes that prior Job's stop channel and installs a
fresh Job (a new stop channel, distinct from the closed one) in its
place. -/
theorem C4_registry_unique_and_replace :
    ∀ ops : List RegOp,
      ((regRun ops).jobs.map Prod.fst).Nodup ∧
      (∀ rid j, lookupJob (regRun ops) rid = some j →
        j ∈ (scheduleOp rid (regRun ops)).closed ∧
        lookupJob (scheduleOp rid (regRun ops)) rid = some (regRun ops).nextId ∧
        (regRun ops).nextId ≠ j) := by
  intro ops
  have inv := regRun_inv ops
  refine ⟨inv.1, ?_⟩
  intro rid j h
  refine ⟨?_, lookupJob_schedule_self _ rid j h, ?_⟩
  · unfold scheduleOp
    rw [h]
    exact List.mem_cons_self j _
  · rcases (lookupJob_mem_keys _ rid j h).2 with ⟨p, hp, _, hpj⟩
    have hlt := inv.2 p hp
    omega

/-- Witness for C4: after `Schedule "r"`, rescheduling `"r"` closes job 0
and installs job 1. -/
theorem C4_registry_unique_and_replace_witness :
    lookupJob (regRun [RegOp.schedule "r"]) "r" = some 0 ∧
    (0 ∈ (scheduleOp "r" (regRun [RegOp.schedule "r"])).closed ∧
     lookupJob (scheduleOp "r" (regRun [RegOp.schedule "r"])) "r" =
       some (regRun [RegOp.schedule "r"]).nextId ∧
     (regRun [RegOp.schedule "r"]).nextId ≠ 0) := by
  have h : lookupJob (regRun [RegOp.schedule "r"]) "r" = some 0 := by
    with_unfolding_all rfl
  exact ⟨h, (C4_registry_unique_and_replace [RegOp.schedule "r"]).2 "r" 0 h⟩

/-- C6 (amended): the temporal-type requirement on a trend/tpa rule's
timestamp column is enforced by the stepper validation
(`validateStepperMetadata`), which never succeeds when the listed type of
the timestamp column contains neither `time` nor `date`;
`RuntimeValidateRule` itself performs no such check (see the
counterexample). -/
theorem C6_stepper_amended : ∀ (adapter : AdapterData) (allowlist : Allowlist)
    (spec : RuleSpec) (subgroup : Option StepperSubgroup) (param : ParameterSpec),
    spec.parameters.head? = some param →
    (param.detector.detectorType = "trend" ∨ param.detector.detectorType = "tpa") →
    (∀ cols, adapter.listColumnsRes = Except.ok cols →
      isTimeType (colTypeOf cols spec.source.timestampColumn) = false) →
    validateStepperMetadata adapter allowlist spec subgroup ≠ some (Except.ok ()) := by
  intro adapter allowlist spec subgroup param hhead htype hts hcontra
  unfold validateStepperMetadata at hcontra
  by_cases h1 : ¬ allowsTable allowlist spec.source.table
  · rw [if_pos h1] at hcontra
    simp at hcontra
  rw [if_neg h1] at hcontra
  cases hT : adapter.listTablesRes with
  | error e =>
    rw [hT] at hcontra
    simp at hcontra
  | ok tables =>
    rw [hT] at hcontra
    dsimp only at hcontra
    by_cases h2 : ¬ tables.contains spec.source.table
    · rw [if_pos h2] at hcontra
      simp at hcontra
    rw [if_neg h2] at hcontra
    cases hC : adapter.listColumnsRes with
    | error e =>
      rw [hC] at hcontra
      simp at hcontra
    | ok cols =>
      rw [hC] at hcontra
      dsimp only at hcontra
      by_cases h3 : ¬ colPresent cols spec.source.timestampColumn
      · rw [if_pos h3] at hcontra
        simp at hcontra
      rw [if_neg h3] at hcontra
      rw [hhead] at hcontra
      dsimp only at hcontra
      by_cases h4 : colTypeOf cols param.valueColumn = ""
      · rw [if_pos h4] at hcontra
        simp at hcontra
      rw [if_neg h4] at hcontra
      by_cases h5 : needsNumeric param.detector.detectorType ∧
          ¬ isNumericType (colTypeOf cols param.valueColumn)
      · rw [if_pos h5] at hcontra
        simp at hcontra
      rw [if_neg h5] at hcontra
      by_cases h6 : (subgroup.elim false
          (fun sg => sg.kind == "column" && ¬ colPresent cols sg.column)) = true
      · rw [if_pos h6] at hcontra
        simp at hcontra
      rw [if_neg h6] at hcontra
      have hcond : (param.detector.detectorType = "trend" ∨
          param.detector.detectorType = "tpa") ∧
          ¬ isTimeType (colTypeOf cols spec.source.timestampColumn) :=
        ⟨htype, by simp [hts cols hC]⟩
      rw [if_pos hcond] at hcontra
      simp at hcontra

/-- C6 counterexample: `RuntimeValidateRule` succeeds on a trend rule
whose timestamp column type is `int` — it performs no temporal-type check
on the timestamp column. -/
theorem C6_runtime_counterexample :
    RuntimeValidateRule c6adapter c6spec c6allowlist c6limits = some (Except.ok ()) ∧
    c6spec.parameters.map (fun p => p.detector.detectorType) = ["trend"] ∧
    isTimeType (colTypeOf c6cols c6spec.source.timestampColumn) = false := by
  refine ⟨?_, ?_, ?_⟩
  · with_unfolding_all rfl
  · with_unfolding_all rfl
  · with_unfolding_all rfl

/-- Witness for C6 on the concrete trend rule over `metrics(value, ts)`
with `ts` typed `int`. -/
theorem C6_stepper_amended_witness :
    (c6spec.parameters.head? = some c6param ∧
     c6param.detector.detectorType = "trend" ∧
     (∀ cols, c6adapter.listColumnsRes = Except.ok cols →
       isTimeType (colTypeOf cols c6spec.source.timestampColumn) = false)) ∧
    validateStepperMetadata c6adapter c6allowlist c6spec none ≠ some (Except.ok ()) := by
  have h1 : c6spec.parameters.head? = some c6param := rfl
  have h2 : c6param.detector.detectorType = "trend" := rfl
  have h3 : ∀ cols, c6adapter.listColumnsRes = Except.ok cols →
      isTimeType (colTypeOf cols c6spec.source.timestampColumn) = false := by
    intro cols hc
    have he : c6cols = cols := by
      have : c6adapter.listColumnsRes = Except.ok c6cols := rfl
      rw [this] at hc
      exact Except.ok.inj hc
    rw [← he]
    with_unfolding_all rfl
  exact ⟨⟨h1, h2, h3⟩,
    C6_stepper_amended c6adapter c6allowlist c6spec none c6param h1 (Or.inl h2) h3⟩

lemma lookupGroup_nil (k : String) : lookupGroup [] k = [] := rfl

lemma lookupGroup_insertAppend (m : List (String × List Sample)) (s : Sample) (k : String) :
    lookupGroup (insertAppend m s) k =
      if k = s.subgroup then lookupGroup m k ++ [s] else lookupGroup m k := by
  induction m with
  | nil =>
    by_cases hk : k = s.subgroup
    · simp [insertAppend, lookupGroup, hk]
    · simp [insertAppend, lookupGroup, hk, Ne.symm hk]
  | cons q rest ih =>
    by_cases hq : q.1 = s.subgroup
    · by_cases hk : k = s.subgroup
      · simp [insertAppend, lookupGroup, hq, hk, List.find?]
      · have hkq : ¬ q.1 = k := by rw [hq]; exact fun he => hk he.symm
        have hbf : (s.subgroup == k) = false := by simp [Ne.symm hk]
        simp [insertAppend, lookupGroup, hq, hk, List.find?, hkq, hbf]
    · by_cases hkq : q.1 = k
      · have hk : ¬ k = s.subgroup := by rw [← hkq]; exact hq
        simp [insertAppend, lookupGroup, hq, hk, List.find?, hkq]
      · simp only [insertAppend, if_neg hq]
        have hbf : (q.1 == k) = false := by simp [hkq]
        have e1 : lookupGroup ((q.1, q.2) :: insertAppend rest s) k =
            lookupGroup (insertAppend rest s) k := by
          simp [lookupGroup, List.find?, hbf]
        have e2 : lookupGroup (q :: rest) k = lookupGroup rest k := by
          simp [lookupGroup, List.find?, hbf]
        rw [show ((q.1, q.2) : String × List Sample) = q from rfl] at e1
        rw [e1, e2, ih]

lemma mem_keys_insertAppend (m : List (String × List Sample)) (s : Sample) (k : String) :
    k ∈ (insertAppend m s).map Prod.fst ↔ k ∈ m.map Prod.fst ∨ k = s.subgroup := by
  induction m with
  | nil => simp [insertAppend, eq_comm]
  | cons q rest ih =>
    by_cases hq : q.1 = s.subgroup
    · simp only [insertAppend, if_pos hq, List.map_cons]
      constructor
      · intro h
        exact Or.inl h
      · intro h
        rcases h with hm | he
        · exact hm
        · exact List.mem_cons.mpr (Or.inl (he.trans hq.symm))
    · simp only [insertAppend, if_neg hq, List.map_cons, List.mem_cons]
      rw [ih]
      tauto

lemma lookupGroup_fold (samples : List Sample) :
    ∀ (acc : List (String × List Sample)) (k : String), k ≠ "" →
    lookupGroup (samples.foldl
      (fun acc s => if s.subgroup = "" then acc else insertAppend acc s) acc) k =
      lookupGroup acc k ++ subgroupBucket samples k := by
  induction samples with
  | nil => intro acc k _; simp [subgroupBucket]
  | cons s rest ih =>
    intro acc k hk
    by_cases hs : s.subgroup = ""
    · have hb : subgroupBucket (s :: rest) k = subgroupBucket rest k := by
        have : ¬ s.subgroup = k := by rw [hs]; exact fun he => hk he.symm
        simp [subgroupBucket, this]
      simp only [List.foldl_cons, if_pos hs]
      rw [ih acc k hk, hb]
    · simp only [List.foldl_cons, if_neg hs]
      rw [ih (insertAppend acc s) k hk, lookupGroup_insertAppend]
      by_cases hks : k = s.subgroup
      · have hb : subgroupBucket (s :: rest) k = s :: subgroupBucket rest k := by
          simp [subgroupBucket, hks.symm]
        rw [hb, if_pos hks]
        simp
      · have hb : subgroupBucket (s :: rest) k = subgroupBucket rest k := by
          have : ¬ s.subgroup = k := fun he => hks he.symm
          simp [subgroupBucket, this]
        rw [hb, if_neg hks]

lemma keys_fold (samples : List Sample) :
    ∀ (acc : List (String × List Sample)) (k : String),
    (k ∈ (samples.foldl
      (fun acc s => if s.subgroup = "" then acc else insertAppend acc s) acc).map Prod.fst ↔
      k ∈ acc.map Prod.fst ∨ (k ≠ "" ∧ subgroupBucket samples k ≠ [])) := by
  induction samples with
  | nil => intro acc k; simp [subgroupBucket]
  | cons s rest ih =>
    intro acc k
    by_cases hs : s.subgroup = ""
    · simp only [List.foldl_cons, if_pos hs]
      rw [ih acc k]
      by_cases hks : s.subgroup = k
      · have hk : k = "" := hs ▸ hks.symm
        simp [subgroupBucket, hk]
      · simp [subgroupBucket, hks]
    · simp only [List.foldl_cons, if_neg hs]
      rw [ih (insertAppend acc s) k, mem_keys_insertAppend]
      by_cases hks : s.subgroup = k
      · have hk : k ≠ "" := by rw [← hks]; exact hs
        have hb : subgroupBucket (s :: rest) k ≠ [] := by
          simp [subgroupBucket, hks]
        constructor
        · intro _
          exact Or.inr ⟨hk, hb⟩
        · intro _
          exact Or.inl (Or.inr hks.symm)
      · have hb : subgroupBucket (s :: rest) k = subgroupBucket rest k := by
          simp [subgroupBucket, hks]
        rw [hb]
        constructor
        · intro h
          rcases h with (hm | he) | hr
          · exact Or.inl hm
          · exact absurd he.symm hks
          · exact Or.inr hr
        · intro h
          rcases h with hm | hr
          · exact Or.inl (Or.inl hm)
          · exact Or.inr hr

lemma map_filterMap_sublist {α β : Type} (f : α → Option β) (m : β → α) (l : List α)
    (h : ∀ a ∈ l, ∀ b, f a = some b → m b = a) : ((l.filterMap f).map m).Sublist l := by
  induction l with
  | nil => simp
  | cons a rest ih =>
    have ih2 := ih (fun x hx b hb => h x (List.mem_cons.mpr (Or.inr hx)) b hb)
    cases hf : f a with
    | none =>
      simp only [List.filterMap_cons, hf]
      exact ih2.cons a
    | some b =>
      simp only [List.filterMap_cons, hf, List.map_cons,
        h a (List.mem_cons.mpr (Or.inl rfl)) b hf]
      exact ih2.cons₂ a

/-- C10: whenever `groupBySubgroup` returns (it panics only for a negative
size with at least one non-empty bucket), every emitted group (i) contains
no empty-key sample, (ii) is exactly the first `size` samples of the bucket
of some non-empty key holding at least `size` samples, (iii) every such
bucket is emitted, and (iv) for positive sizes the groups come in
lexicographic key order. -/
theorem C10_groupBySubgroup :
    ∀ (samples : List Sample) (size : ℤ) (gs : List (List Sample)),
    groupBySubgroup samples size = some gs →
      (∀ g ∈ gs, ∀ s ∈ g, s.subgroup ≠ "") ∧
      (∀ g ∈ gs, ∃ k, k ≠ "" ∧ size ≤ ((subgroupBucket samples k).length : ℤ) ∧
        g = (subgroupBucket samples k).take size.toNat) ∧
      (∀ k, k ≠ "" → subgroupBucket samples k ≠ [] →
        size ≤ ((subgroupBucket samples k).length : ℤ) →
        (subgroupBucket samples k).take size.toNat ∈ gs) ∧
      (1 ≤ size → List.Pairwise (fun g1 g2 => keyOfGroup g1 ≤ keyOfGroup g2) gs) := by
  intro samples size gs h
  simp only [groupBySubgroup] at h
  split_ifs at h with hpanic
  set grouped := samples.foldl
    (fun acc s => if s.subgroup = "" then acc else insertAppend acc s) [] with hgdef
  set order := (grouped.map Prod.fst).insertionSort (· ≤ ·) with hodef
  set f : String → Option (List Sample) := (fun k =>
    if ((lookupGroup grouped k).length : ℤ) < size then none
    else some ((lookupGroup grouped k).take size.toNat)) with hfdef
  have hgs : gs = order.filterMap f := (Option.some.inj h).symm
  have hordermem : ∀ k, k ∈ order ↔ k ∈ grouped.map Prod.fst := by
    intro k
    exact (List.perm_insertionSort (· ≤ ·) (grouped.map Prod.fst)).mem_iff
  have hkeys : ∀ k, k ∈ grouped.map Prod.fst ↔ (k ≠ "" ∧ subgroupBucket samples k ≠ []) := by
    intro k
    rw [hgdef, keys_fold]
    simp
  have hlk : ∀ k, k ≠ "" → lookupGroup grouped k = subgroupBucket samples k := by
    intro k hk
    rw [hgdef, lookupGroup_fold samples [] k hk, lookupGroup_nil]
    rfl
  have hmem_char : ∀ g, g ∈ gs ↔ ∃ k ∈ order, f k = some g := by
    intro g
    rw [hgs]
    exact List.mem_filterMap
  refine ⟨?_, ?_, ?_, ?_⟩
  · intro g hg s hs
    rcases (hmem_char g).mp hg with ⟨k, hko, hfk⟩
    have hk := ((hkeys k).mp ((hordermem k).mp hko)).1
    rw [hfdef] at hfk
    simp only at hfk
    split_ifs at hfk with hlt
    have hgk : g = (lookupGroup grouped k).take size.toNat := (Option.some.inj hfk).symm
    rw [hlk k hk] at hgk
    have hsb : s ∈ subgroupBucket samples k := by
      rw [hgk] at hs
      exact List.mem_of_mem_take hs
    have := List.mem_filter.mp hsb
    have hsk : s.subgroup = k := by simpa using this.2
    rw [hsk]
    exact hk
  · intro g hg
    rcases (hmem_char g).mp hg with ⟨k, hko, hfk⟩
    have hk := ((hkeys k).mp ((hordermem k).mp hko)).1
    rw [hfdef] at hfk
    simp only at hfk
    split_ifs at hfk with hlt
    have hgk : g = (lookupGroup grouped k).take size.toNat := (Option.some.inj hfk).symm
    rw [hlk k hk] at hgk hlt
    exact ⟨k, hk, not_lt.mp hlt, hgk⟩
  · intro k hk hne hlen
    rw [hgs]
    apply List.mem_filterMap.mpr
    refine ⟨k, ?_, ?_⟩
    · exact (hordermem k).mpr ((hkeys k).mpr ⟨hk, hne⟩)
    · rw [hfdef]
      simp only
      rw [hlk k hk]
      rw [if_neg (not_lt.mpr hlen)]
  · intro hsize
    have hkey : ∀ a ∈ order, ∀ b, f a = some b → keyOfGroup b = a := by
      intro a ha b hb
      have hk := ((hkeys a).mp ((hordermem a).mp ha)).1
      rw [hfdef] at hb
      simp only at hb
      split_ifs at hb with hlt
      have hgb : b = (lookupGroup grouped a).take size.toNat := (Option.some.inj hb).symm
      rw [hlk a hk] at hgb hlt
      have hlen := not_lt.mp hlt
      have h1 : 1 ≤ (subgroupBucket samples a).length := by
        omega
      rcases hb2 : subgroupBucket samples a with _ | ⟨b0, brest⟩
      · rw [hb2] at h1; simp at h1
      · have hbk : b0.subgroup = a := by
          have : b0 ∈ subgroupBucket samples a := by rw [hb2]; exact List.mem_cons_self _ _
          have := List.mem_filter.mp this
          simpa using this.2
        have hn1 : 1 ≤ size.toNat := by omega
        rcases hn : size.toNat with _ | n
        · omega
        · rw [hgb, hb2, hn]
          simp [keyOfGroup, List.take, hbk]
    have hsub : (gs.map keyOfGroup).Sublist order := by
      rw [hgs]
      exact map_filterMap_sublist f keyOfGroup order hkey
    have hsorted : List.Pairwise (· ≤ ·) order := by
      rw [hodef]
      exact List.sorted_insertionSort (· ≤ ·) (grouped.map Prod.fst)
    have := List.Pairwise.sublist hsub hsorted
    exact (List.pairwise_map).mp this

/-- Witness for C10 at `c10samples` with size 1. -/
theorem C10_groupBySubgroup_witness :
    groupBySubgroup c10samples 1 = some c10groups ∧
    ((∀ g ∈ c10groups, ∀ s ∈ g, s.subgroup ≠ "") ∧
     (∀ g ∈ c10groups, ∃ k, k ≠ "" ∧ (1 : ℤ) ≤ ((subgroupBucket c10samples k).length : ℤ) ∧
       g = (subgroupBucket c10samples k).take (1 : ℤ).toNat) ∧
     (∀ k, k ≠ "" → subgroupBucket c10samples k ≠ [] →
       (1 : ℤ) ≤ ((subgroupBucket c10samples k).length : ℤ) →
       (subgroupBucket c10samples k).take (1 : ℤ).toNat ∈ c10groups) ∧
     ((1 : ℤ) ≤ 1 → List.Pairwise (fun g1 g2 => keyOfGroup g1 ≤ keyOfGroup g2) c10groups)) := by
  have h : groupBySubgroup c10samples 1 = some c10groups := by with_unfolding_all rfl
  exact ⟨h, C10_groupBySubgroup c10samples 1 c10groups h⟩

lemma no_hit_of_char {r : DetectorResult}
    (hchar : (r.status = statusOK ∨ r.status = statusViolation) ∨
      (r.hit = false ∧ r.violations = []))
    (hc : r.status = statusInsufficient ∨ r.status = statusInvalidConfig) :
    r.hit = false ∧ r.violations = [] := by
  rcases hchar with hs | hf
  · exfalso
    rcases hs with hs | hs <;> rcases hc with hc | hc <;> rw [hs] at hc <;>
      simp [statusOK, statusViolation, statusInsufficient, statusInvalidConfig] at hc
  · exact hf

lemma threshold_status (t : ThresholdSpec) (v : GoVal) :
    (EvaluateThresholdDetector t v).status = statusOK ∨
    (EvaluateThresholdDetector t v).status = statusViolation := by
  unfold EvaluateThresholdDetector statusFromHit
  dsimp only
  split
  · right; rfl
  · left; rfl

lemma robustZ_status (s : List ℚ) (l zw zc : ℚ) :
    (EvaluateRobustZ s l zw zc).status = statusOK ∨
    (EvaluateRobustZ s l zw zc).status = statusViolation := by
  unfold EvaluateRobustZ
  dsimp only
  repeat' split
  all_goals first | (left; rfl) | (right; rfl)

lemma missing_status (ts : ℚ) (g : ℤ) (now : ℚ) :
    (EvaluateMissingData ts g now).status = statusOK ∨
    (EvaluateMissingData ts g now).status = statusViolation := by
  unfold EvaluateMissingData statusFromHit
  dsimp only
  split
  · right; rfl
  · left; rfl

lemma specLimitSection_status (sample : Sample) (eps : ℚ) (bounds : Option SpecLimitBounds)
    (r : DetectorResult) (h : r.status = statusOK ∨ r.status = statusViolation) :
    (specLimitSection sample eps bounds r).status = statusOK ∨
    (specLimitSection sample eps bounds r).status = statusViolation := by
  rcases bounds with _ | ⟨_ | u, _ | l⟩ <;> unfold specLimitSection <;> dsimp only <;>
    repeat' split
  all_goals first | exact h | (right; rfl)

lemma controlLimitSection_status (sample : Sample) (eps : ℚ)
    (bounds : Option ControlLimitBounds) (r : DetectorResult)
    (h : r.status = statusOK ∨ r.status = statusViolation) :
    (controlLimitSection sample eps bounds r).status = statusOK ∨
    (controlLimitSection sample eps bounds r).status = statusViolation := by
  rcases bounds with _ | ⟨_ | u, _ | l⟩ <;> unfold controlLimitSection <;> dsimp only <;>
    repeat' split
  all_goals first | exact h | (right; rfl)

lemma specLimit_char (sample : Sample) (sp : SpecLimitSpec) :
    ((EvaluateSpecLimit sample sp).status = statusOK ∨
     (EvaluateSpecLimit sample sp).status = statusViolation) ∨
    ((EvaluateSpecLimit sample sp).hit = false ∧
     (EvaluateSpecLimit sample sp).violations = []) := by
  unfold EvaluateSpecLimit
  dsimp only
  repeat' split
  all_goals first
  | exact Or.inr ⟨rfl, rfl⟩
  | exact Or.inl (controlLimitSection_status _ _ _ _
      (specLimitSection_status _ _ _ _ (Or.inl rfl)))
  | exact Or.inl (controlLimitSection_status _ _ _ _ (Or.inl rfl))
  | exact Or.inl (specLimitSection_status _ _ _ _ (Or.inl rfl))

lemma shewhart_char (samples : List Sample) (sp : ShewhartSpec) (m : ℚ)
    (r : DetectorResult) (heq : EvaluateShewhart samples sp m = some r) :
    (r.status = statusOK ∨ r.status = statusViolation) ∨
    (r.hit = false ∧ r.violations = []) := by
  unfold EvaluateShewhart at heq
  dsimp only at heq
  repeat' split at heq
  all_goals first
  | exact Option.noConfusion heq
  | (obtain rfl := Option.some.inj heq
     first
     | exact Or.inr ⟨rfl, rfl⟩
     | exact Or.inl (Or.inl rfl)
     | exact Or.inl (Or.inr rfl))

lemma trend6_char (samples : List Sample) (sp : TrendSpec)
    (r : DetectorResult) (heq : EvaluateTrend6 samples sp = some r) :
    (r.status = statusOK ∨ r.status = statusViolation) ∨
    (r.hit = false ∧ r.violations = []) := by
  unfold EvaluateTrend6 at heq
  dsimp only at heq
  repeat' split at heq
  all_goals first
  | exact Option.noConfusion heq
  | (obtain rfl := Option.some.inj heq
     first
     | exact Or.inr ⟨rfl, rfl⟩
     | exact Or.inl (Or.inl rfl)
     | exact Or.inl (Or.inr rfl))

lemma rangeChart_char (groups : List (List Sample)) (sp : RangeChartSpec)
    (r : DetectorResult) (heq : EvaluateRangeChart groups sp = some r) :
    (r.status = statusOK ∨ r.status = statusViolation) ∨
    (r.hit = false ∧ r.violations = []) := by
  unfold EvaluateRangeChart at heq
  dsimp only at heq
  repeat' split at heq
  all_goals first
  | exact Option.noConfusion heq
  | (obtain rfl := Option.some.inj heq
     first
     | exact Or.inr ⟨rfl, rfl⟩
     | exact Or.inl (Or.inl rfl)
     | exact Or.inl (Or.inr rfl))

lemma tpa_char (samples : List Sample) (sp : TPASpec) :
    ((EvaluateTPA samples sp).status = statusOK ∨
     (EvaluateTPA samples sp).status = statusViolation) ∨
    ((EvaluateTPA samples sp).hit = false ∧
     (EvaluateTPA samples sp).violations = []) := by
  unfold EvaluateTPA
  dsimp only
  repeat' split
  all_goals first
  | exact Or.inr ⟨rfl, rfl⟩
  | exact Or.inl (Or.inl rfl)
  | exact Or.inl (Or.inr rfl)

/-- C1: for every detector kernel and every input, a returned result whose
status is INSUFFICIENT_DATA or INVALID_CONFIG has `hit = false` and an empty
violations list.  The threshold, robust-z and missing-data kernels never emit
those statuses at all (their status is always OK or VIOLATION), so for them
the stronger disjunction is stated; the other five kernels are stated as the
implication (through `some` for the kernels whose Go code can panic). -/
theorem C1_kernels_no_hit_on_bad_status :
    (∀ t v, (EvaluateThresholdDetector t v).status = statusOK ∨
            (EvaluateThresholdDetector t v).status = statusViolation) ∧
    (∀ s l zw zc, (EvaluateRobustZ s l zw zc).status = statusOK ∨
                  (EvaluateRobustZ s l zw zc).status = statusViolation) ∧
    (∀ ts g now, (EvaluateMissingData ts g now).status = statusOK ∨
                 (EvaluateMissingData ts g now).status = statusViolation) ∧
    (∀ sample sp,
      ((EvaluateSpecLimit sample sp).status = statusInsufficient ∨
       (EvaluateSpecLimit sample sp).status = statusInvalidConfig) →
      (EvaluateSpecLimit sample sp).hit = false ∧
      (EvaluateSpecLimit sample sp).violations = []) ∧
    (∀ samples sp m r, EvaluateShewhart samples sp m = some r →
      (r.status = statusInsufficient ∨ r.status = statusInvalidConfig) →
      r.hit = false ∧ r.violations = []) ∧
    (∀ groups sp r, EvaluateRangeChart groups sp = some r →
      (r.status = statusInsufficient ∨ r.status = statusInvalidConfig) →
      r.hit = false ∧ r.violations = []) ∧
    (∀ samples sp r, EvaluateTrend6 samples sp = some r →
      (r.status = statusInsufficient ∨ r.status = statusInvalidConfig) →
      r.hit = false ∧ r.violations = []) ∧
    (∀ samples sp,
      ((EvaluateTPA samples sp).status = statusInsufficient ∨
       (EvaluateTPA samples sp).status = statusInvalidConfig) →
      (EvaluateTPA samples sp).hit = false ∧
      (EvaluateTPA samples sp).violations = []) :=
  ⟨threshold_status, robustZ_status, missing_status,
   fun sample sp h => no_hit_of_char (specLimit_char sample sp) h,
   fun _ _ _ _ heq h => no_hit_of_char (shewhart_char _ _ _ _ heq) h,
   fun _ _ _ heq h => no_hit_of_char (rangeChart_char _ _ _ heq) h,
   fun _ _ _ heq h => no_hit_of_char (trend6_char _ _ _ heq) h,
   fun samples sp h => no_hit_of_char (tpa_char samples sp) h⟩

/-- C1 witness: the five implication conjuncts are discharged at concrete
inputs that actually reach the INVALID_CONFIG / INSUFFICIENT_DATA statuses. -/
theorem C1_kernels_no_hit_on_bad_status_witness :
    ((EvaluateSpecLimit {} {}).hit = false ∧
     (EvaluateSpecLimit {} {}).violations = []) ∧
    ((insufficientData "baseline too small").hit = false ∧
     (insufficientData "baseline too small").violations = []) ∧
    ((insufficientData "no valid subgroups").hit = false ∧
     (insufficientData "no valid subgroups").violations = []) ∧
    ((insufficientData "not enough points").hit = false ∧
     (insufficientData "not enough points").violations = []) ∧
    ((EvaluateTPA [] {}).hit = false ∧ (EvaluateTPA [] {}).violations = []) :=
  ⟨C1_kernels_no_hit_on_bad_status.2.2.2.1 {} {}
     (Or.inr (by with_unfolding_all rfl)),
   C1_kernels_no_hit_on_bad_status.2.2.2.2.1 [] {} 3 _
     (by with_unfolding_all rfl) (Or.inl (by with_unfolding_all rfl)),
   C1_kernels_no_hit_on_bad_status.2.2.2.2.2.1 [] {} _
     (by with_unfolding_all rfl) (Or.inl (by with_unfolding_all rfl)),
   C1_kernels_no_hit_on_bad_status.2.2.2.2.2.2.1 [] {} _
     (by with_unfolding_all rfl) (Or.inl (by with_unfolding_all rfl)),
   C1_kernels_no_hit_on_bad_status.2.2.2.2.2.2.2 [] {}
     (Or.inr (by with_unfolding_all rfl))⟩
